import Mathlib

/-!
OpenSL ES stream adapter (`src/opensles/AudioStreamOpenSLES.cpp`) and error
translator (`src/opensles/OpenSLESUtilities.cpp`).

A shallow embedding of the buffer sizing policy, the buffer-queue callback
bridge, the open and close sequences, the position estimate, the polling wait
and the channel mask of `AudioStreamOpenSLES`, and of `getSLErrStr`, followed
by the properties established about them.

Conventions.
* `int32_t` and `int64_t` values are mathematical integers; an arithmetic
  operation of the source whose result may leave the range of its type is
  followed by `wrapInt32` or `wrapInt64`.
* Calls into code outside the translation unit (the client callback, the
  buffer queue, the buffered layer, the engine singleton, the destroy hooks)
  are recorded in an event trace, and what they return is an argument.
-/

namespace Oboe

/-! ## Machine integers -/

/-- Two's-complement reduction of an integer to the range of `int32_t`. -/
def wrapInt32 (x : Int) : Int :=
  (x + 2147483648) % 4294967296 - 2147483648

/-- Two's-complement reduction of an integer to the range of `int64_t`. -/
def wrapInt64 (x : Int) : Int :=
  (x + 9223372036854775808) % 18446744073709551616 - 9223372036854775808

/-! ## Enumerations -/

/-- The `oboe::Result` values returned by the functions embedded here. -/
inductive Result where
  | OK
  | ErrorClosed
  | ErrorInternal
  | ErrorInvalidFormat
  | ErrorOutOfRange
  | ErrorTimeout
  deriving DecidableEq, Repr

/-- Modelled from the spec: the `StreamState` enumeration, whose declaration
(`oboe/Definitions.h`) is not part of the sources; the states are the ones the
data model lists. -/
inductive StreamState where
  | Uninitialized
  | Open
  | Starting
  | Started
  | Stopping
  | Stopped
  | Closing
  | Closed
  | Disconnected
  deriving DecidableEq, Repr

/-- Stream direction (`oboe::Direction`). -/
inductive Direction where
  | Output
  | Input
  deriving DecidableEq, Repr

/-- Sharing mode (`oboe::SharingMode`). -/
inductive SharingMode where
  | Exclusive
  | Shared
  deriving DecidableEq, Repr

/-- What the client data callback hands back. `processBufferCallback` compares
the value with `Continue` and with `Stop` and has a branch for anything else;
`Unexpected code` stands for a value that is neither, with its numeric code. -/
inductive DataCallbackResult where
  | Continue
  | Stop
  | Unexpected (code : Int)
  deriving DecidableEq, Repr

/-! ## Constants declared outside the sources -/

/-- Constants and platform defaults that the translation unit reads but that
are declared in headers outside the sources: `kUnspecified`,
`DefaultStreamValues::FramesPerBurst`, `DefaultStreamValues::SampleRate`,
`DefaultStreamValues::ChannelCount` and `kBufferQueueLength`. -/
structure Platform where
  kUnspecified : Int
  defaultFramesPerBurst : Int
  defaultSampleRate : Int
  defaultChannelCount : Int
  kBufferQueueLength : Int
  deriving DecidableEq, Repr

/-- Line 40: `kHighLatencyBufferSizeMillis = 20`. -/
def kHighLatencyBufferSizeMillis : Int := 20

/-- Modelled from the spec: `kMillisPerSecond`, declared in
`oboe/Definitions.h`; the position estimate divides by 1000. -/
def kMillisPerSecond : Int := 1000

/-- Modelled from the spec: `kNanosPerMillisecond`, declared in
`oboe/Definitions.h`; the sleep slice `20 * kNanosPerMillisecond` is 20 ms. -/
def kNanosPerMillisecond : Int := 1000000

/-! ## Stream state -/

/-- The fields of an `AudioStreamOpenSLES` that the embedded functions read or
write. Interface handles are `none` for `nullptr`; `mCallbackBuffer` holds the
length of the allocated array. The frame counters `mFramesRead` and
`mFramesWritten` are 64-bit atomic counters declared outside the sources. -/
structure Stream where
  mState : StreamState
  mDirection : Direction
  mSampleRate : Int
  mChannelCount : Int
  mSharingMode : SharingMode
  mFramesPerBurst : Int
  mFramesPerCallback : Int
  mBytesPerCallback : Int
  mCallbackBuffer : Option Int
  mBufferCapacityInFrames : Int
  mBufferSizeInFrames : Int
  mFramesRead : Int
  mFramesWritten : Int
  mPositionMillis : Int
  mObjectInterface : Option Nat
  mSimpleBufferQueueInterface : Option Nat
  deriving DecidableEq, Repr

/-- A freshly constructed stream, used for concrete evaluations. -/
def Stream.fresh : Stream :=
  { mState := StreamState.Uninitialized
    mDirection := Direction.Output
    mSampleRate := 0
    mChannelCount := 0
    mSharingMode := SharingMode.Exclusive
    mFramesPerBurst := 0
    mFramesPerCallback := 0
    mBytesPerCallback := 0
    mCallbackBuffer := none
    mBufferCapacityInFrames := 0
    mBufferSizeInFrames := 0
    mFramesRead := 0
    mFramesWritten := 0
    mPositionMillis := 0
    mObjectInterface := none
    mSimpleBufferQueueInterface := none }

/-- A platform with `kUnspecified = 0`, a default burst of 192 frames and a
queue of two buffers, used for concrete evaluations. -/
def Platform.sample : Platform :=
  { kUnspecified := 0
    defaultFramesPerBurst := 192
    defaultSampleRate := 48000
    defaultChannelCount := 2
    kBufferQueueLength := 2 }

/-! ## Buffer sizing policy (lines 93-134) -/

/-- Lines 97-108 of `configureBufferSizes`: decide the burst size from the
caller's hint. The high-latency size computed from `sampleRate` is a local
that is never read. -/
def resolveBurst (P : Platform) (sampleRate : Int) (s : Stream) : Stream :=
  if s.mFramesPerCallback ≠ P.kUnspecified then
    { s with mFramesPerBurst := s.mFramesPerCallback }
  else
    let s1 := { s with mFramesPerBurst := P.defaultFramesPerBurst }
    let _framesPerHighLatencyBuffer : Int :=
      wrapInt32 (Int.tdiv (wrapInt32 (kHighLatencyBufferSizeMillis * sampleRate)) kMillisPerSecond)
    { s1 with mFramesPerCallback := s1.mFramesPerBurst }

/-- `AudioStreamOpenSLES::configureBufferSizes(sampleRate)`. `bytesPerFrame`
is what `getBytesPerFrame()` returns and `usingFIFO` what `usingFIFO()`
returns; both are defined outside the sources. -/
def configureBufferSizes (P : Platform) (bytesPerFrame : Int) (usingFIFO : Bool)
    (sampleRate : Int) (s : Stream) : Result × Stream :=
  let s1 := resolveBurst P sampleRate s
  let s2 := { s1 with mBytesPerCallback := wrapInt32 (s1.mFramesPerCallback * bytesPerFrame) }
  if s2.mBytesPerCallback ≤ 0 then
    (Result.ErrorInvalidFormat, s2)
  else
    let s3 := { s2 with mCallbackBuffer := some s2.mBytesPerCallback }
    if !usingFIFO then
      let s4 := { s3 with
        mBufferCapacityInFrames := wrapInt32 (s3.mFramesPerBurst * P.kBufferQueueLength) }
      if s4.mBufferCapacityInFrames ≤ 0 then
        (Result.ErrorOutOfRange, { s4 with mBufferCapacityInFrames := 0 })
      else
        (Result.OK, { s4 with mBufferSizeInFrames := s4.mBufferCapacityInFrames })
    else
      (Result.OK, s3)

/-! ## Calls that leave the translation unit -/

/-- Modelled from the spec: `SL_RESULT_SUCCESS`, declared in `OpenSLES.h`,
which is not part of the sources; the success code of the native engine. -/
def SL_RESULT_SUCCESS : Nat := 0

/-- A call into code outside the translation unit, or a write that the close
sequence performs between such calls, in the order the source performs them.
`engineOpen` and `bufferedOpen` carry what the call returned. -/
inductive Event where
  | fireDataCallback (numFrames : Int)
  | enqueue (numBytes : Int)
  | requestStop
  | bufferedClose
  | onBeforeDestroy
  | destroy (object : Nat)
  | onAfterDestroy
  | clearBufferQueueInterface
  | engineClose
  | setState (state : StreamState)
  | engineOpen (result : Nat)
  | bufferedOpen (result : Result)
  deriving DecidableEq, Repr

/-! ## Buffer-queue callback bridge (lines 209-236) -/

/-- `AudioStreamOpenSLES::processBufferCallback(bq)`. `callbackResult` is what
`fireDataCallback` returns and `enqueueResult` what `Enqueue` returns when it
is called. `requestStop` is implemented by the subclasses; the call is
recorded and what it does to the stream is not part of this function. The
`+=` on a frame counter is an `int64_t` addition. -/
def processBufferCallback (callbackResult : DataCallbackResult) (enqueueResult : Nat)
    (s : Stream) : Stream × List Event :=
  let stopStream := false
  let trace := [Event.fireDataCallback s.mFramesPerCallback]
  let (s1, trace1, stopStream1) :=
    if callbackResult = DataCallbackResult.Continue then
      let trace2 := trace ++ [Event.enqueue s.mBytesPerCallback]
      let stopStream2 := if enqueueResult ≠ SL_RESULT_SUCCESS then true else stopStream
      if s.mDirection = Direction.Input then
        ({ s with mFramesRead := wrapInt64 (s.mFramesRead + s.mFramesPerCallback) },
          trace2, stopStream2)
      else
        ({ s with mFramesWritten := wrapInt64 (s.mFramesWritten + s.mFramesPerCallback) },
          trace2, stopStream2)
    else if callbackResult = DataCallbackResult.Stop then
      (s, trace, true)
    else
      (s, trace, true)
  if stopStream1 then (s1, trace1 ++ [Event.requestStop]) else (s1, trace1)

/-- One engine notification as the bridge sees it: the client's answer and the
outcome of the re-enqueue. -/
structure CallbackStep where
  callbackResult : DataCallbackResult
  enqueueResult : Nat
  deriving DecidableEq, Repr

/-- Consecutive `processBufferCallback` invocations, one per element of
`steps`, with the traces concatenated in call order. -/
def processBufferCallbacks : List CallbackStep → Stream → Stream × List Event
  | [], s => (s, [])
  | step :: rest, s =>
    let r := processBufferCallback step.callbackResult step.enqueueResult s
    let r2 := processBufferCallbacks rest r.1
    (r2.1, r.2 ++ r2.2)

/-- The counter that `processBufferCallback` advances for the stream's
direction: `mFramesRead` for Input, `mFramesWritten` for Output. -/
def Stream.directionCounter (s : Stream) : Int :=
  if s.mDirection = Direction.Input then s.mFramesRead else s.mFramesWritten

/-! ## Close sequence (lines 176-197) -/

/-- What the virtual calls made by `close_l` do to the stream's fields. Their
bodies are outside the sources, so each is an arbitrary function. -/
structure CloseHooks where
  bufferedClose : Stream → Stream
  onBeforeDestroy : Stream → Stream
  onAfterDestroy : Stream → Stream

/-- Hooks that leave every field alone. -/
def CloseHooks.inert : CloseHooks :=
  { bufferedClose := id, onBeforeDestroy := id, onAfterDestroy := id }

/-- `AudioStreamOpenSLES::close_l()`. -/
def close_l (H : CloseHooks) (s : Stream) : Result × Stream × List Event :=
  if s.mState = StreamState.Closed then
    (Result.ErrorClosed, s, [])
  else
    let s1 := H.bufferedClose s
    let s2 := H.onBeforeDestroy s1
    let (s3, destroyed) :=
      match s2.mObjectInterface with
      | some object => ({ s2 with mObjectInterface := none }, [Event.destroy object])
      | none => (s2, [])
    let s4 := H.onAfterDestroy s3
    let s5 := { s4 with mSimpleBufferQueueInterface := none }
    let s6 := { s5 with mState := StreamState.Closed }
    (Result.OK, s6,
      [Event.bufferedClose, Event.onBeforeDestroy] ++ destroyed ++
        [Event.onAfterDestroy, Event.clearBufferQueueInterface, Event.engineClose,
          Event.setState StreamState.Closed])

/-! ## Position estimate (lines 262-267) -/

/-- `AudioStreamOpenSLES::getFramesProcessedByServer()`.
`updateServiceFrameCounter` is implemented by the subclasses and is an
arbitrary function on the stream. The product is formed in `int64_t`. -/
def getFramesProcessedByServer (updateServiceFrameCounter : Stream → Stream) (s : Stream) :
    Int × Stream :=
  let s1 := updateServiceFrameCounter s
  let millis64 := s1.mPositionMillis
  let framesProcessed := Int.tdiv (wrapInt64 (millis64 * s1.mSampleRate)) kMillisPerSecond
  (framesProcessed, s1)

/-! ## Polling wait (lines 269-299) -/

/-- What a run of `waitForStateChange` leaves behind: the returned result, the
cell `nextState` points to (`none` when the pointer is null), how many times
`getState` was called, and the arguments of `sleepForNanos` in call order. -/
structure WaitOutcome where
  result : Result
  nextState : Option StreamState
  reads : Nat
  sleeps : List Int
  deriving DecidableEq, Repr

/-- The `while (true)` loop of `waitForStateChange`. `getState k` is the state
seen by the read that follows `k` earlier reads. Every iteration uses one unit
of `fuel`; `none` means the fuel ran out before the loop left. The subtraction
is only reached with `0 < timeLeftNanos` and a slice clamped to it, so it
stays within `int64_t` whenever the slice is positive. -/
def waitLoop (getState : Nat → StreamState) (currentState : StreamState) :
    Nat → Int → Int → WaitOutcome → Option WaitOutcome
  | 0, _, _, _ => none
  | fuel + 1, sleepTimeNanos, timeLeftNanos, acc =>
    let state := getState acc.reads
    let acc1 := { acc with reads := acc.reads + 1, nextState := acc.nextState.map (fun _ => state) }
    if currentState ≠ state then
      some { acc1 with result := Result.OK }
    else if timeLeftNanos ≤ 0 then
      some acc1
    else
      let sleepTimeNanos1 := if sleepTimeNanos > timeLeftNanos then timeLeftNanos else sleepTimeNanos
      waitLoop getState currentState fuel sleepTimeNanos1 (timeLeftNanos - sleepTimeNanos1)
        { acc1 with sleeps := acc1.sleeps ++ [sleepTimeNanos1] }

/-- `AudioStreamOpenSLES::waitForStateChange(currentState, nextState,
timeoutNanoseconds)`, run for at most `fuel` loop iterations. -/
def waitForStateChange (fuel : Nat) (getState : Nat → StreamState) (currentState : StreamState)
    (nextState : Option StreamState) (timeoutNanoseconds : Int) : Option WaitOutcome :=
  waitLoop getState currentState fuel (20 * kNanosPerMillisecond) timeoutNanoseconds
    { result := Result.ErrorTimeout, nextState := nextState, reads := 0, sleeps := [] }

/-- The slices a wait of `timeLeft` nanoseconds is cut into when the state
never changes: full slices of `slice` and then the remainder, if any. -/
def sleepSlices (slice timeLeft : Int) : List Int :=
  List.replicate (timeLeft / slice).toNat slice ++
    (if timeLeft % slice = 0 then [] else [timeLeft % slice])

/-! ## Channel mask (lines 40-54) -/

/-- Line 41: `kAudioChannelCountMax = 30`, an `SLuint32`. -/
def kAudioChannelCountMax : Nat := 30

/-- Line 42: `SL_ANDROID_UNKNOWN_CHANNELMASK = 0`, an `SLuint32`. -/
def SL_ANDROID_UNKNOWN_CHANNELMASK : Nat := 0

/-- `AudioStreamOpenSLES::channelCountToChannelMaskDefault(channelCount)`.
The comparison converts the `int` argument to `SLuint32`; the shift and the
subtraction are done in `int` and the result is converted to `SLuint32`. -/
def channelCountToChannelMaskDefault (channelCount : Int) : Nat :=
  if (channelCount % 4294967296).toNat > kAudioChannelCountMax then
    SL_ANDROID_UNKNOWN_CHANNELMASK
  else
    let bitfield : Nat :=
      (wrapInt32 (wrapInt32 (1 * 2 ^ channelCount.toNat) - 1) % 4294967296).toNat
    bitfield

/-! ## Open (lines 65-91) -/

/-- `AudioStreamOpenSLES::open()`. `engineResult` is what
`EngineOpenSLES::getInstance().open()` returns; `bufferedOpen` is
`AudioStreamBuffered::open()`, whose body is outside the sources: an arbitrary
function that returns a result and may change the stream's fields. -/
def Stream.open (P : Platform) (engineResult : Nat) (bufferedOpen : Stream → Result × Stream)
    (s : Stream) : Result × Stream × List Event :=
  if SL_RESULT_SUCCESS ≠ engineResult then
    (Result.ErrorInternal, s, [Event.engineOpen engineResult])
  else
    let oboeResult := (bufferedOpen s).1
    let s1 := (bufferedOpen s).2
    let trace := [Event.engineOpen engineResult, Event.bufferedOpen oboeResult]
    if oboeResult ≠ Result.OK then
      (oboeResult, s1, trace)
    else
      let s2 :=
        if s1.mSampleRate = P.kUnspecified then { s1 with mSampleRate := P.defaultSampleRate }
        else s1
      let s3 :=
        if s2.mChannelCount = P.kUnspecified then
          { s2 with mChannelCount := P.defaultChannelCount }
        else s2
      let s4 := { s3 with mSharingMode := SharingMode.Shared }
      (Result.OK, s4, trace)

/-- Modelled from the spec: the engine handle count of the Engine Resource
Manager (`EngineOpenSLES`, outside the sources). A successful `open()` acquires
one reference to the process-wide engine and `close()` releases one; a failed
`open()` acquires nothing. The value is the number of references that the
calls in `trace` leave held. -/
def engineHandlesHeld (trace : List Event) : Int :=
  (trace.count (Event.engineOpen SL_RESULT_SUCCESS) : Int) - (trace.count Event.engineClose : Int)

/-! ## Error translator (`OpenSLESUtilities.cpp`, lines 26-65) -/

/-- The result codes that `getSLErrStr` has a `case` for, in the order of the
`switch`; each stands for the macro `SL_RESULT_` followed by its name. -/
inductive SLResultCode where
  | SUCCESS
  | PRECONDITIONS_VIOLATED
  | PARAMETER_INVALID
  | MEMORY_FAILURE
  | RESOURCE_ERROR
  | RESOURCE_LOST
  | IO_ERROR
  | BUFFER_INSUFFICIENT
  | CONTENT_CORRUPTED
  | CONTENT_UNSUPPORTED
  | CONTENT_NOT_FOUND
  | PERMISSION_DENIED
  | FEATURE_UNSUPPORTED
  | INTERNAL_ERROR
  | UNKNOWN_ERROR
  | OPERATION_ABORTED
  | CONTROL_LOST
  deriving DecidableEq, Repr

/-- `getSLErrStr(code)`. The numeric values of the `SL_RESULT_` macros come
from `OpenSLES.h`, which is outside the sources, so `value` supplies them. The
`switch` is read top to bottom. -/
def getSLErrStr (value : SLResultCode → Nat) (code : Nat) : String :=
  if code = value SLResultCode.SUCCESS then "SL_RESULT_SUCCESS"
  else if code = value SLResultCode.PRECONDITIONS_VIOLATED then "SL_RESULT_PRECONDITIONS_VIOLATED"
  else if code = value SLResultCode.PARAMETER_INVALID then "SL_RESULT_PARAMETER_INVALID"
  else if code = value SLResultCode.MEMORY_FAILURE then "SL_RESULT_MEMORY_FAILURE"
  else if code = value SLResultCode.RESOURCE_ERROR then "SL_RESULT_RESOURCE_ERROR"
  else if code = value SLResultCode.RESOURCE_LOST then "SL_RESULT_RESOURCE_LOST"
  else if code = value SLResultCode.IO_ERROR then "SL_RESULT_IO_ERROR"
  else if code = value SLResultCode.BUFFER_INSUFFICIENT then "SL_RESULT_BUFFER_INSUFFICIENT"
  else if code = value SLResultCode.CONTENT_CORRUPTED then "SL_RESULT_CONTENT_CORRUPTED"
  else if code = value SLResultCode.CONTENT_UNSUPPORTED then "SL_RESULT_CONTENT_UNSUPPORTED"
  else if code = value SLResultCode.CONTENT_NOT_FOUND then "SL_RESULT_CONTENT_NOT_FOUND"
  else if code = value SLResultCode.PERMISSION_DENIED then "SL_RESULT_PERMISSION_DENIED"
  else if code = value SLResultCode.FEATURE_UNSUPPORTED then "SL_RESULT_FEATURE_UNSUPPORTED"
  else if code = value SLResultCode.INTERNAL_ERROR then "SL_RESULT_INTERNAL_ERROR"
  else if code = value SLResultCode.UNKNOWN_ERROR then "SL_RESULT_UNKNOWN_ERROR"
  else if code = value SLResultCode.OPERATION_ABORTED then "SL_RESULT_OPERATION_ABORTED"
  else if code = value SLResultCode.CONTROL_LOST then "SL_RESULT_CONTROL_LOST"
  else "Unknown SL error"

/-- The spelling of the macro a result code stands for. -/
def SLResultCode.spelling : SLResultCode → String
  | SUCCESS => "SL_RESULT_SUCCESS"
  | PRECONDITIONS_VIOLATED => "SL_RESULT_PRECONDITIONS_VIOLATED"
  | PARAMETER_INVALID => "SL_RESULT_PARAMETER_INVALID"
  | MEMORY_FAILURE => "SL_RESULT_MEMORY_FAILURE"
  | RESOURCE_ERROR => "SL_RESULT_RESOURCE_ERROR"
  | RESOURCE_LOST => "SL_RESULT_RESOURCE_LOST"
  | IO_ERROR => "SL_RESULT_IO_ERROR"
  | BUFFER_INSUFFICIENT => "SL_RESULT_BUFFER_INSUFFICIENT"
  | CONTENT_CORRUPTED => "SL_RESULT_CONTENT_CORRUPTED"
  | CONTENT_UNSUPPORTED => "SL_RESULT_CONTENT_UNSUPPORTED"
  | CONTENT_NOT_FOUND => "SL_RESULT_CONTENT_NOT_FOUND"
  | PERMISSION_DENIED => "SL_RESULT_PERMISSION_DENIED"
  | FEATURE_UNSUPPORTED => "SL_RESULT_FEATURE_UNSUPPORTED"
  | INTERNAL_ERROR => "SL_RESULT_INTERNAL_ERROR"
  | UNKNOWN_ERROR => "SL_RESULT_UNKNOWN_ERROR"
  | OPERATION_ABORTED => "SL_RESULT_OPERATION_ABORTED"
  | CONTROL_LOST => "SL_RESULT_CONTROL_LOST"

/-- The named result codes, in the order of the `switch`. -/
def SLResultCode.all : List SLResultCode :=
  [SUCCESS, PRECONDITIONS_VIOLATED, PARAMETER_INVALID, MEMORY_FAILURE, RESOURCE_ERROR,
    RESOURCE_LOST, IO_ERROR, BUFFER_INSUFFICIENT, CONTENT_CORRUPTED, CONTENT_UNSUPPORTED,
    CONTENT_NOT_FOUND, PERMISSION_DENIED, FEATURE_UNSUPPORTED, INTERNAL_ERROR, UNKNOWN_ERROR,
    OPERATION_ABORTED, CONTROL_LOST]

/-- The values OpenSL ES 1.0.1 gives the result macros, `0x0` to `0x10` in the
order of the `switch`; used for concrete evaluations. -/
def SLResultCode.standardValue : SLResultCode → Nat
  | SUCCESS => SL_RESULT_SUCCESS
  | PRECONDITIONS_VIOLATED => 1
  | PARAMETER_INVALID => 2
  | MEMORY_FAILURE => 3
  | RESOURCE_ERROR => 4
  | RESOURCE_LOST => 5
  | IO_ERROR => 6
  | BUFFER_INSUFFICIENT => 7
  | CONTENT_CORRUPTED => 8
  | CONTENT_UNSUPPORTED => 9
  | CONTENT_NOT_FOUND => 10
  | PERMISSION_DENIED => 11
  | FEATURE_UNSUPPORTED => 12
  | INTERNAL_ERROR => 13
  | UNKNOWN_ERROR => 14
  | OPERATION_ABORTED => 15
  | CONTROL_LOST => 16

/-! ## Concrete inputs used by the evaluations below -/

/-- A stream that asks for 1073741825 frames per callback. -/
def Stream.hugeCallback : Stream :=
  { Stream.fresh with mFramesPerCallback := 1073741825 }

/-- A stream that asks for 3 frames per callback. -/
def Stream.threeFrames : Stream :=
  { Stream.fresh with mFramesPerCallback := 3 }

/-- A stream that asks for 1431655766 frames per callback. -/
def Stream.thirdOfRange : Stream :=
  { Stream.fresh with mFramesPerCallback := 1431655766 }

/-- A stream that asks for 1073741824 frames per callback. -/
def Stream.quarterOfRange : Stream :=
  { Stream.fresh with mFramesPerCallback := 1073741824 }

/-- The sample platform with a queue of three buffers. -/
def Platform.tripleQueue : Platform :=
  { Platform.sample with kBufferQueueLength := 3 }

/-- An Input stream that handles 256 frames per callback. -/
def Stream.recording : Stream :=
  { Stream.fresh with mDirection := Direction.Input, mFramesPerCallback := 256 }

/-- An open stream that holds native object 7 and buffer queue interface 8. -/
def Stream.opened : Stream :=
  { Stream.fresh with
    mState := StreamState.Open, mObjectInterface := some 7,
    mSimpleBufferQueueInterface := some 8 }

/-- A stream at 44100 Hz whose position counter reads 1000 ms. -/
def Stream.oneSecond : Stream :=
  { Stream.fresh with mSampleRate := 44100, mPositionMillis := 1000 }

/-- A stream at 48000 Hz whose position counter reads 200000000000000 ms. -/
def Stream.longRunning : Stream :=
  { Stream.fresh with mSampleRate := 48000, mPositionMillis := 200000000000000 }

/-- The step the bridge sees when the client continues and the re-enqueue
succeeds. -/
def CallbackStep.continued : CallbackStep :=
  { callbackResult := DataCallbackResult.Continue, enqueueResult := SL_RESULT_SUCCESS }

/-- A stream that asks for 480 frames per callback and still holds the burst
size 64 and the buffer sizes 7 and 9 of an earlier configuration. -/
def Stream.requested : Stream :=
  { Stream.fresh with
    mFramesPerCallback := 480, mFramesPerBurst := 64,
    mBufferCapacityInFrames := 7, mBufferSizeInFrames := 9 }

/-- Whether an event is a `Destroy` of a native object. -/
def Event.isDestroy : Event → Bool
  | Event.destroy _ => true
  | _ => false

/-- A buffered layer whose `open()` succeeds and changes no field. -/
def bufferedOpenSucceeds (s : Stream) : Result × Stream :=
  (Result.OK, s)

/-- A buffered layer whose `open()` fails with ErrorInvalidFormat and changes
no field. -/
def bufferedOpenFails (s : Stream) : Result × Stream :=
  (Result.ErrorInvalidFormat, s)

/-- A stream built with 44100 Hz and an unspecified channel count. -/
def Stream.halfSpecified : Stream :=
  { Stream.fresh with mSampleRate := 44100, mChannelCount := 0 }

/-- An Output stream whose `mFramesWritten` is the largest `int64_t` and that
handles 1 frame per callback. -/
def Stream.saturated : Stream :=
  { Stream.fresh with mFramesWritten := 9223372036854775807, mFramesPerCallback := 1 }

theorem wrapInt64_of_inRange (x : Int) (hlo : -9223372036854775808 ≤ x)
    (hhi : x ≤ 9223372036854775807) : wrapInt64 x = x := by
  unfold wrapInt64
  rw [Int.emod_eq_of_lt (by omega) (by omega)]
  omega

theorem wrapInt64_inRange (x : Int) :
    -9223372036854775808 ≤ wrapInt64 x ∧ wrapInt64 x ≤ 9223372036854775807 := by
  unfold wrapInt64
  omega

theorem wrapInt64_add_wrapInt64 (a b : Int) : wrapInt64 (wrapInt64 a + b) = wrapInt64 (a + b) := by
  unfold wrapInt64
  omega

theorem wrapInt32_of_inRange (x : Int) (hlo : -2147483648 ≤ x) (hhi : x ≤ 2147483647) :
    wrapInt32 x = x := by
  unfold wrapInt32
  rw [Int.emod_eq_of_lt (by omega) (by omega)]
  omega

theorem wrapInt32_nonpos_of_overflow (x : Int) (hlo : 2147483647 < x) (hhi : x ≤ 4294967296) :
    wrapInt32 x ≤ 0 := by
  unfold wrapInt32
  omega

/-! ## Buffer sizing policy -/

/-- The byte size is always the wrapped product of the resolved callback size
and the frame size. -/
theorem configureBufferSizes_bytes (P : Platform) (bytesPerFrame : Int) (usingFIFO : Bool)
    (sampleRate : Int) (s : Stream) :
    (configureBufferSizes P bytesPerFrame usingFIFO sampleRate s).2.mBytesPerCallback =
      wrapInt32 ((resolveBurst P sampleRate s).mFramesPerCallback * bytesPerFrame) := by
  unfold configureBufferSizes
  cases usingFIFO <;> simp only [] <;> split_ifs <;> simp_all

/-- No branch of `configureBufferSizes` touches the resolved callback size. -/
theorem configureBufferSizes_framesPerCallback (P : Platform) (bytesPerFrame : Int)
    (usingFIFO : Bool) (sampleRate : Int) (s : Stream) :
    (configureBufferSizes P bytesPerFrame usingFIFO sampleRate s).2.mFramesPerCallback =
      (resolveBurst P sampleRate s).mFramesPerCallback := by
  unfold configureBufferSizes
  cases usingFIFO <;> simp only [] <;> split_ifs <;> simp_all

/-- The format error is returned exactly when the wrapped byte size is not
positive. -/
theorem configureBufferSizes_invalidFormat_iff (P : Platform) (bytesPerFrame : Int)
    (usingFIFO : Bool) (sampleRate : Int) (s : Stream) :
    (configureBufferSizes P bytesPerFrame usingFIFO sampleRate s).1 = Result.ErrorInvalidFormat ↔
      wrapInt32 ((resolveBurst P sampleRate s).mFramesPerCallback * bytesPerFrame) ≤ 0 := by
  unfold configureBufferSizes
  cases usingFIFO <;> simp only [] <;> split_ifs <;> simp_all

/-- When the byte size check passes, the callback buffer is allocated with the
wrapped byte size. -/
theorem configureBufferSizes_allocates (P : Platform) (bytesPerFrame : Int)
    (usingFIFO : Bool) (sampleRate : Int) (s : Stream)
    (h : 0 < wrapInt32 ((resolveBurst P sampleRate s).mFramesPerCallback * bytesPerFrame)) :
    (configureBufferSizes P bytesPerFrame usingFIFO sampleRate s).2.mCallbackBuffer =
      some (wrapInt32 ((resolveBurst P sampleRate s).mFramesPerCallback * bytesPerFrame)) := by
  unfold configureBufferSizes
  have h2 : ¬ wrapInt32 ((resolveBurst P sampleRate s).mFramesPerCallback * bytesPerFrame) ≤ 0 := by
    omega
  cases usingFIFO <;> simp only [] <;> split_ifs <;> simp_all

/-- Without the FIFO and with a passing byte size check, the result and the
capacity are decided by the sign of the wrapped capacity product. -/
theorem configureBufferSizes_noFIFO (P : Platform) (bytesPerFrame : Int) (sampleRate : Int)
    (s : Stream)
    (h : 0 < wrapInt32 ((resolveBurst P sampleRate s).mFramesPerCallback * bytesPerFrame)) :
    (wrapInt32 ((resolveBurst P sampleRate s).mFramesPerBurst * P.kBufferQueueLength) ≤ 0 →
      (configureBufferSizes P bytesPerFrame false sampleRate s).1 = Result.ErrorOutOfRange ∧
      (configureBufferSizes P bytesPerFrame false sampleRate s).2.mBufferCapacityInFrames = 0) ∧
    (0 < wrapInt32 ((resolveBurst P sampleRate s).mFramesPerBurst * P.kBufferQueueLength) →
      (configureBufferSizes P bytesPerFrame false sampleRate s).1 = Result.OK ∧
      (configureBufferSizes P bytesPerFrame false sampleRate s).2.mBufferCapacityInFrames =
        wrapInt32 ((resolveBurst P sampleRate s).mFramesPerBurst * P.kBufferQueueLength) ∧
      (configureBufferSizes P bytesPerFrame false sampleRate s).2.mBufferSizeInFrames =
        wrapInt32 ((resolveBurst P sampleRate s).mFramesPerBurst * P.kBufferQueueLength)) := by
  have h2 : ¬ wrapInt32 ((resolveBurst P sampleRate s).mFramesPerCallback * bytesPerFrame) ≤ 0 := by
    omega
  constructor
  · intro hc
    unfold configureBufferSizes
    simp [h2, hc]
  · intro hc
    have hc2 : ¬ wrapInt32 ((resolveBurst P sampleRate s).mFramesPerBurst * P.kBufferQueueLength) ≤ 0 := by
      omega
    unfold configureBufferSizes
    simp [h2, hc2]

/-- C1 (evaluation at the failing input): a stream asks for 1073741825 frames
per callback with 4 bytes per frame. The product 4294967300 wraps to 4, the
sign test of line 113 passes, and a 4-byte callback buffer is allocated. With
the FIFO the call returns OK; without it the capacity check of lines 122-124
rejects the same request with ErrorOutOfRange. On neither path is
`mBytesPerCallback` the product, and on neither is ErrorInvalidFormat
returned. -/
theorem configureBufferSizes_bytes_not_exact :
    (configureBufferSizes Platform.sample 4 true 48000 Stream.hugeCallback).2.mFramesPerCallback * 4
        = 4294967300 ∧
    ((configureBufferSizes Platform.sample 4 true 48000 Stream.hugeCallback).1 = Result.OK ∧
      (configureBufferSizes Platform.sample 4 true 48000 Stream.hugeCallback).2.mBytesPerCallback = 4 ∧
      (configureBufferSizes Platform.sample 4 true 48000 Stream.hugeCallback).2.mCallbackBuffer
        = some 4) ∧
    ((configureBufferSizes Platform.sample 4 false 48000 Stream.hugeCallback).1
        = Result.ErrorOutOfRange ∧
      (configureBufferSizes Platform.sample 4 false 48000 Stream.hugeCallback).2.mBytesPerCallback
        = 4 ∧
      (configureBufferSizes Platform.sample 4 false 48000 Stream.hugeCallback).2.mCallbackBuffer
        = some 4) := by
  decide

/-- With 3 frames per callback and -1431655765 bytes per frame the product
wraps to 1, so the call does not return ErrorInvalidFormat although the frame
size is negative. -/
theorem configureBufferSizes_negative_frame_size_passes :
    0 < (configureBufferSizes Platform.sample (-1431655765) false 48000
          Stream.threeFrames).2.mFramesPerCallback ∧
    (configureBufferSizes Platform.sample (-1431655765) false 48000 Stream.threeFrames).1
        = Result.OK := by
  decide

/-- Whenever the product of the resolved `mFramesPerCallback` and
`bytesPerFrame` lies in the `int32_t` range, `configureBufferSizes` sets
`mBytesPerCallback` to exactly that product and either proceeds (it allocates
the callback buffer with that many bytes and does not return
ErrorInvalidFormat) or returns ErrorInvalidFormat; it returns
ErrorInvalidFormat exactly when the product is not positive, hence whenever
`bytesPerFrame ≤ 0` with a positive resolved `mFramesPerCallback`. -/
theorem configureBufferSizes_bytes_exact_inRange (P : Platform) (bytesPerFrame : Int)
    (usingFIFO : Bool) (sampleRate : Int) (s : Stream)
    (hlo : -2147483648 ≤ (resolveBurst P sampleRate s).mFramesPerCallback * bytesPerFrame)
    (hhi : (resolveBurst P sampleRate s).mFramesPerCallback * bytesPerFrame ≤ 2147483647) :
    (configureBufferSizes P bytesPerFrame usingFIFO sampleRate s).2.mFramesPerCallback =
        (resolveBurst P sampleRate s).mFramesPerCallback ∧
    (configureBufferSizes P bytesPerFrame usingFIFO sampleRate s).2.mBytesPerCallback =
        (resolveBurst P sampleRate s).mFramesPerCallback * bytesPerFrame ∧
    ((configureBufferSizes P bytesPerFrame usingFIFO sampleRate s).1 = Result.ErrorInvalidFormat ∨
      ((configureBufferSizes P bytesPerFrame usingFIFO sampleRate s).1 ≠ Result.ErrorInvalidFormat ∧
        (configureBufferSizes P bytesPerFrame usingFIFO sampleRate s).2.mCallbackBuffer =
          some ((resolveBurst P sampleRate s).mFramesPerCallback * bytesPerFrame))) ∧
    ((configureBufferSizes P bytesPerFrame usingFIFO sampleRate s).1 = Result.ErrorInvalidFormat ↔
      (resolveBurst P sampleRate s).mFramesPerCallback * bytesPerFrame ≤ 0) ∧
    (0 < (resolveBurst P sampleRate s).mFramesPerCallback → bytesPerFrame ≤ 0 →
      (configureBufferSizes P bytesPerFrame usingFIFO sampleRate s).1 = Result.ErrorInvalidFormat) := by
  have hw := wrapInt32_of_inRange _ hlo hhi
  have hiff := configureBufferSizes_invalidFormat_iff P bytesPerFrame usingFIFO sampleRate s
  rw [hw] at hiff
  refine ⟨configureBufferSizes_framesPerCallback P bytesPerFrame usingFIFO sampleRate s, ?_, ?_,
    hiff, ?_⟩
  · rw [configureBufferSizes_bytes, hw]
  · by_cases hpos : (resolveBurst P sampleRate s).mFramesPerCallback * bytesPerFrame ≤ 0
    · exact Or.inl (hiff.mpr hpos)
    · refine Or.inr ⟨fun hbad => hpos (hiff.mp hbad), ?_⟩
      have halloc := configureBufferSizes_allocates P bytesPerFrame usingFIFO sampleRate s
        (by rw [hw]; omega)
      rw [halloc, hw]
  · intro hf hb
    exact hiff.mpr (Int.mul_nonpos_of_nonneg_of_nonpos (le_of_lt hf) hb)

/-- With the default burst, 192 frames of 4 bytes give 768 bytes and the call
proceeds. -/
theorem configureBufferSizes_bytes_exact_inRange_witness :
    (configureBufferSizes Platform.sample 4 false 48000 Stream.fresh).2.mBytesPerCallback =
      (resolveBurst Platform.sample 48000 Stream.fresh).mFramesPerCallback * 4 :=
  (configureBufferSizes_bytes_exact_inRange Platform.sample 4 false 48000 Stream.fresh
    (by decide) (by decide)).2.1

/-- C2, as stated, fails for a queue length of 3: 1431655766 frames per burst
give the product 4294967298, which exceeds 2^31 - 1 and wraps to 2, so the
call returns OK with a capacity of 2. -/
theorem configureBufferSizes_capacity_overflow_missed :
    0 < Platform.tripleQueue.kBufferQueueLength ∧
    0 < (configureBufferSizes Platform.tripleQueue 1 false 48000
          Stream.thirdOfRange).2.mBytesPerCallback ∧
    2147483647 < (configureBufferSizes Platform.tripleQueue 1 false 48000
          Stream.thirdOfRange).2.mFramesPerBurst * Platform.tripleQueue.kBufferQueueLength ∧
    (configureBufferSizes Platform.tripleQueue 1 false 48000 Stream.thirdOfRange).1 = Result.OK ∧
    (configureBufferSizes Platform.tripleQueue 1 false 48000
          Stream.thirdOfRange).2.mBufferCapacityInFrames = 2 := by
  decide

/-- C2 (amended): for a stream that does not use the FIFO and whose byte size
check passes, and a positive queue length, `configureBufferSizes` returns
ErrorOutOfRange with `mBufferCapacityInFrames = 0` whenever the product of
`mFramesPerBurst` and the queue length exceeds 2^31 - 1 without exceeding
2^32, which is every overflowing product when the queue length is at most 2;
and it returns OK with `mBufferCapacityInFrames` equal to the exact product
when the product lies in 1..2^31 - 1. -/
theorem configureBufferSizes_capacity_checked (P : Platform) (bytesPerFrame : Int)
    (sampleRate : Int) (s : Stream)
    (hbytes : 0 < wrapInt32 ((resolveBurst P sampleRate s).mFramesPerCallback * bytesPerFrame))
    (hq : 0 < P.kBufferQueueLength) :
    (2147483647 < (resolveBurst P sampleRate s).mFramesPerBurst * P.kBufferQueueLength →
      (resolveBurst P sampleRate s).mFramesPerBurst * P.kBufferQueueLength ≤ 4294967296 →
      (configureBufferSizes P bytesPerFrame false sampleRate s).1 = Result.ErrorOutOfRange ∧
      (configureBufferSizes P bytesPerFrame false sampleRate s).2.mBufferCapacityInFrames = 0) ∧
    (P.kBufferQueueLength ≤ 2 → (resolveBurst P sampleRate s).mFramesPerBurst ≤ 2147483647 →
      2147483647 < (resolveBurst P sampleRate s).mFramesPerBurst * P.kBufferQueueLength →
      (configureBufferSizes P bytesPerFrame false sampleRate s).1 = Result.ErrorOutOfRange ∧
      (configureBufferSizes P bytesPerFrame false sampleRate s).2.mBufferCapacityInFrames = 0) ∧
    (1 ≤ (resolveBurst P sampleRate s).mFramesPerBurst * P.kBufferQueueLength →
      (resolveBurst P sampleRate s).mFramesPerBurst * P.kBufferQueueLength ≤ 2147483647 →
      (configureBufferSizes P bytesPerFrame false sampleRate s).1 = Result.OK ∧
      (configureBufferSizes P bytesPerFrame false sampleRate s).2.mBufferCapacityInFrames =
        (resolveBurst P sampleRate s).mFramesPerBurst * P.kBufferQueueLength) := by
  have hcap := configureBufferSizes_noFIFO P bytesPerFrame sampleRate s hbytes
  have hover : 2147483647 < (resolveBurst P sampleRate s).mFramesPerBurst * P.kBufferQueueLength →
      (resolveBurst P sampleRate s).mFramesPerBurst * P.kBufferQueueLength ≤ 4294967296 →
      (configureBufferSizes P bytesPerFrame false sampleRate s).1 = Result.ErrorOutOfRange ∧
      (configureBufferSizes P bytesPerFrame false sampleRate s).2.mBufferCapacityInFrames = 0 :=
    fun hlo hhi => hcap.1 (wrapInt32_nonpos_of_overflow _ hlo hhi)
  refine ⟨hover, ?_, ?_⟩
  · intro hq2 hburst hlo
    refine hover hlo ?_
    have hcases : P.kBufferQueueLength = 1 ∨ P.kBufferQueueLength = 2 := by omega
    rcases hcases with h1 | h2
    · rw [h1]; omega
    · rw [h2]; omega
  · intro hlo hhi
    have hw := wrapInt32_of_inRange _ (by omega : (-2147483648 : Int) ≤
      (resolveBurst P sampleRate s).mFramesPerBurst * P.kBufferQueueLength) hhi
    have hok := hcap.2 (by rw [hw]; omega)
    exact ⟨hok.1, by rw [hok.2.1, hw]⟩

/-- Witness for C2 (amended): with the queue of two buffers, 1073741824 frames
per burst overflow and the call returns ErrorOutOfRange with capacity 0. -/
theorem configureBufferSizes_capacity_checked_witness :
    (configureBufferSizes Platform.sample 1 false 48000 Stream.quarterOfRange).1
        = Result.ErrorOutOfRange ∧
    (configureBufferSizes Platform.sample 1 false 48000
        Stream.quarterOfRange).2.mBufferCapacityInFrames = 0 :=
  (configureBufferSizes_capacity_checked Platform.sample 1 48000 Stream.quarterOfRange
    (by decide) (by decide)).2.1 (by decide) (by decide) (by decide)

/-! ## Polling wait -/

/-- An iteration whose read differs from `currentState` leaves the loop with OK. -/
theorem waitLoop_changed (getState : Nat → StreamState) (currentState : StreamState)
    (fuel : Nat) (sleepTimeNanos timeLeftNanos : Int) (acc : WaitOutcome)
    (h : getState acc.reads ≠ currentState) :
    waitLoop getState currentState (fuel + 1) sleepTimeNanos timeLeftNanos acc =
      some { result := Result.OK
             nextState := acc.nextState.map (fun _ => getState acc.reads)
             reads := acc.reads + 1
             sleeps := acc.sleeps } := by
  have h2 : currentState ≠ getState acc.reads := fun e => h e.symm
  simp [waitLoop, h2]

/-- An iteration with no time left and an unchanged state leaves the loop
without sleeping and without touching the result. -/
theorem waitLoop_expired (getState : Nat → StreamState) (currentState : StreamState)
    (fuel : Nat) (sleepTimeNanos timeLeftNanos : Int) (acc : WaitOutcome)
    (h : getState acc.reads = currentState) (ht : timeLeftNanos ≤ 0) :
    waitLoop getState currentState (fuel + 1) sleepTimeNanos timeLeftNanos acc =
      some { result := acc.result
             nextState := acc.nextState.map (fun _ => getState acc.reads)
             reads := acc.reads + 1
             sleeps := acc.sleeps } := by
  simp [waitLoop, h, ht]

theorem sleepSlices_zero : sleepSlices 20000000 0 = [] := by
  simp [sleepSlices]

theorem sleepSlices_short (t : Int) (h0 : 0 < t) (h1 : t < 20000000) :
    sleepSlices 20000000 t = [t] := by
  have hd : t / 20000000 = 0 := by omega
  have hm : t % 20000000 = t := by omega
  have hne : t ≠ 0 := by omega
  simp [sleepSlices, hd, hm, hne]

theorem sleepSlices_step (t : Int) (h : 20000000 ≤ t) :
    sleepSlices 20000000 t = 20000000 :: sleepSlices 20000000 (t - 20000000) := by
  have hd : (t / 20000000).toNat = ((t - 20000000) / 20000000).toNat + 1 := by omega
  have hm : (t - 20000000) % 20000000 = t % 20000000 := by omega
  simp [sleepSlices, hd, hm, List.replicate_succ]

/-- The loop under a state that never changes: starting with the 20 ms slice
and `t` nanoseconds left, it sleeps through `sleepSlices 20000000 t` and leaves
with the result it started with. -/
theorem waitLoop_unchanged (getState : Nat → StreamState) (currentState : StreamState)
    (hconst : ∀ k, getState k = currentState) :
    ∀ (fuel : Nat) (t : Int) (acc : WaitOutcome), 0 ≤ t →
      ((t + 19999999) / 20000000).toNat < fuel →
      waitLoop getState currentState fuel 20000000 t acc =
        some { result := acc.result
               nextState := acc.nextState.map (fun _ => currentState)
               reads := acc.reads + ((t + 19999999) / 20000000).toNat + 1
               sleeps := acc.sleeps ++ sleepSlices 20000000 t } := by
  intro fuel
  induction fuel with
  | zero => intro t acc _ hf; omega
  | succ n ih =>
    intro t acc ht hf
    by_cases hz : t ≤ 0
    · have ht0 : t = 0 := by omega
      subst ht0
      rw [waitLoop_expired getState currentState n _ _ acc (hconst _) (le_refl 0)]
      simp [hconst, sleepSlices_zero]
    · by_cases hlt : t < 20000000
      · have hn : 0 < n := by omega
        obtain ⟨m, rfl⟩ : ∃ m, n = m + 1 := ⟨n - 1, by omega⟩
        have hcount : ((t + 19999999) / 20000000).toNat = 1 := by omega
        have hgt : (20000000 : Int) > t := hlt
        rw [waitLoop]
        simp only [hconst, ne_eq, not_true_eq_false, if_false, hz, hgt, if_true, sub_self]
        rw [waitLoop_expired getState currentState m _ _ _ (hconst _) (le_refl 0)]
        simp [hconst, sleepSlices_short t (by omega) hlt, hcount, Function.comp_def]
      · have hge : (20000000 : Int) ≤ t := by omega
        have hngt : ¬ (20000000 : Int) > t := by omega
        have hcount : ((t + 19999999) / 20000000).toNat =
            ((t - 20000000 + 19999999) / 20000000).toNat + 1 := by omega
        rw [waitLoop]
        simp only [hconst, ne_eq, not_true_eq_false, if_false, hz, hngt]
        rw [ih (t - 20000000) _ (by omega) (by omega)]
        simp only [hconst, sleepSlices_step t hge, hcount, Option.map_map, Function.comp_def,
          List.append_assoc, List.singleton_append]
        congr 2
        omega

theorem sleepSlices_sum (t : Int) (ht : 0 ≤ t) : (sleepSlices 20000000 t).sum = t := by
  have hcast : (((t / 20000000).toNat : Nat) : Int) = t / 20000000 := by omega
  by_cases hm : t % 20000000 = 0
  · simp [sleepSlices, hm, List.sum_replicate, hcast]
    omega
  · simp [sleepSlices, hm, List.sum_replicate, hcast]
    omega

theorem sleepSlices_length (t : Int) (ht : 0 ≤ t) :
    ((sleepSlices 20000000 t).length : Int) = (t + 19999999) / 20000000 := by
  have hcast : (((t / 20000000).toNat : Nat) : Int) = t / 20000000 := by omega
  by_cases hm : t % 20000000 = 0
  · simp [sleepSlices, hm, hcast]
    omega
  · simp [sleepSlices, hm, hcast]
    omega

theorem sleepSlices_bounded (t : Int) :
    ∀ d ∈ sleepSlices 20000000 t, 0 < d ∧ d ≤ 20000000 := by
  intro d hd
  unfold sleepSlices at hd
  rw [List.mem_append] at hd
  rcases hd with h | h
  · have := List.eq_of_mem_replicate h
    omega
  · by_cases hm : t % 20000000 = 0
    · simp [hm] at h
    · simp [hm] at h
      omega

/-- C3: if the first state read differs from `currentState`, then for every
timeout and every later evolution of the state `waitForStateChange` returns OK
after exactly one read and no call to `sleepForNanos`, and the cell behind a
non-null `nextState` holds the state that was read. -/
theorem waitForStateChange_already_changed (fuel : Nat) (getState : Nat → StreamState)
    (currentState : StreamState) (nextState : Option StreamState) (timeoutNanoseconds : Int)
    (hfuel : 0 < fuel) (h : getState 0 ≠ currentState) :
    waitForStateChange fuel getState currentState nextState timeoutNanoseconds =
      some { result := Result.OK
             nextState := nextState.map (fun _ => getState 0)
             reads := 1
             sleeps := [] } := by
  obtain ⟨n, rfl⟩ : ∃ n, fuel = n + 1 := ⟨fuel - 1, by omega⟩
  unfold waitForStateChange
  rw [waitLoop_changed getState currentState n _ _ _ h]

/-- Witness for C3: a stream seen as Started while the caller waits on Open. -/
theorem waitForStateChange_already_changed_witness :
    waitForStateChange 1 (fun _ => StreamState.Started) StreamState.Open
        (some StreamState.Uninitialized) 50000000 =
      some { result := Result.OK
             nextState := some StreamState.Started
             reads := 1
             sleeps := [] } :=
  waitForStateChange_already_changed 1 (fun _ => StreamState.Started) StreamState.Open
    (some StreamState.Uninitialized) 50000000 (by decide) (by decide)

/-- C4: for a positive timeout and a state that never leaves `currentState`,
`waitForStateChange` terminates (any fuel above ceil(timeout / 20 ms) is
enough) and returns ErrorTimeout; every requested sleep is positive and at
most 20 ms, the requested sleeps sum to exactly the timeout, there are
ceil(timeout / 20 ms) of them, one more read than sleeps is made, and the cell
behind a non-null `nextState` holds `currentState`. -/
theorem waitForStateChange_times_out (fuel : Nat) (getState : Nat → StreamState)
    (currentState : StreamState) (nextState : Option StreamState) (timeoutNanoseconds : Int)
    (hpos : 0 < timeoutNanoseconds) (hconst : ∀ k, getState k = currentState)
    (hfuel : ((timeoutNanoseconds + 19999999) / 20000000).toNat < fuel) :
    ∃ out : WaitOutcome,
      waitForStateChange fuel getState currentState nextState timeoutNanoseconds = some out ∧
      out.result = Result.ErrorTimeout ∧
      (∀ d ∈ out.sleeps, 0 < d ∧ d ≤ 20 * kNanosPerMillisecond) ∧
      out.sleeps.sum = timeoutNanoseconds ∧
      (out.sleeps.length : Int) =
        (timeoutNanoseconds + (20 * kNanosPerMillisecond - 1)) / (20 * kNanosPerMillisecond) ∧
      out.reads = out.sleeps.length + 1 ∧
      out.nextState = nextState.map (fun _ => currentState) := by
  have hS : 20 * kNanosPerMillisecond = 20000000 := by decide
  have hlen := sleepSlices_length timeoutNanoseconds (le_of_lt hpos)
  have hrun : waitForStateChange fuel getState currentState nextState timeoutNanoseconds =
      some { result := Result.ErrorTimeout
             nextState := nextState.map (fun _ => currentState)
             reads := 0 + ((timeoutNanoseconds + 19999999) / 20000000).toNat + 1
             sleeps := [] ++ sleepSlices 20000000 timeoutNanoseconds } := by
    unfold waitForStateChange
    rw [hS]
    exact waitLoop_unchanged getState currentState hconst fuel timeoutNanoseconds _
      (le_of_lt hpos) hfuel
  refine ⟨_, hrun, ?_⟩
  · rw [hS]
    refine ⟨rfl, ?_, ?_, ?_, ?_, rfl⟩
    · simpa using sleepSlices_bounded timeoutNanoseconds
    · simpa using sleepSlices_sum timeoutNanoseconds (le_of_lt hpos)
    · simpa using hlen
    · simp only [List.nil_append, Nat.zero_add]
      omega

/-- Witness for C4: a 50 ms wait on a stream that stays Open. -/
theorem waitForStateChange_times_out_witness :
    ∃ out : WaitOutcome,
      waitForStateChange 4 (fun _ => StreamState.Open) StreamState.Open
        (some StreamState.Uninitialized) 50000000 = some out ∧
      out.result = Result.ErrorTimeout ∧
      (∀ d ∈ out.sleeps, 0 < d ∧ d ≤ 20 * kNanosPerMillisecond) ∧
      out.sleeps.sum = 50000000 ∧
      (out.sleeps.length : Int) =
        (50000000 + (20 * kNanosPerMillisecond - 1)) / (20 * kNanosPerMillisecond) ∧
      out.reads = out.sleeps.length + 1 ∧
      out.nextState = (some StreamState.Uninitialized).map (fun _ => StreamState.Open) :=
  waitForStateChange_times_out 4 (fun _ => StreamState.Open) StreamState.Open
    (some StreamState.Uninitialized) 50000000 (by decide) (fun _ => rfl) (by decide)

/-- C5: for a timeout that is zero or negative, `waitForStateChange` reads the
state exactly once and never sleeps; it returns OK if the state read differs
from `currentState` and ErrorTimeout if it equals it. -/
theorem waitForStateChange_nonblocking (fuel : Nat) (getState : Nat → StreamState)
    (currentState : StreamState) (nextState : Option StreamState) (timeoutNanoseconds : Int)
    (hfuel : 0 < fuel) (ht : timeoutNanoseconds ≤ 0) :
    waitForStateChange fuel getState currentState nextState timeoutNanoseconds =
      some { result := if getState 0 ≠ currentState then Result.OK else Result.ErrorTimeout
             nextState := nextState.map (fun _ => getState 0)
             reads := 1
             sleeps := [] } := by
  obtain ⟨n, rfl⟩ : ∃ n, fuel = n + 1 := ⟨fuel - 1, by omega⟩
  unfold waitForStateChange
  by_cases h : getState 0 = currentState
  · rw [waitLoop_expired getState currentState n _ _ _ h ht]
    simp [h]
  · rw [waitLoop_changed getState currentState n _ _ _ h]
    simp [h]

/-- Witness for C5: a poll with timeout 0 on a stream that stays Open. -/
theorem waitForStateChange_nonblocking_witness :
    waitForStateChange 1 (fun _ => StreamState.Open) StreamState.Open none 0 =
      some { result := if StreamState.Open ≠ StreamState.Open then Result.OK
                       else Result.ErrorTimeout
             nextState := none
             reads := 1
             sleeps := [] } :=
  waitForStateChange_nonblocking 1 (fun _ => StreamState.Open) StreamState.Open none 0
    (by decide) (by decide)

/-! ## Buffer-queue callback bridge -/

/-- One invocation in which the client continues and the re-enqueue succeeds:
the direction's counter advances, nothing else changes, and the calls made are
the data callback and the enqueue. -/
theorem processBufferCallback_continued (s : Stream) :
    processBufferCallback DataCallbackResult.Continue SL_RESULT_SUCCESS s =
      (if s.mDirection = Direction.Input then
          { s with mFramesRead := wrapInt64 (s.mFramesRead + s.mFramesPerCallback) }
        else
          { s with mFramesWritten := wrapInt64 (s.mFramesWritten + s.mFramesPerCallback) },
        [Event.fireDataCallback s.mFramesPerCallback, Event.enqueue s.mBytesPerCallback]) := by
  unfold processBufferCallback
  by_cases hd : s.mDirection = Direction.Input <;> simp [hd]

/-- One continued invocation keeps the callback size and the direction and
advances the direction's counter by the callback size, in `int64_t`. -/
theorem processBufferCallback_continued_fields (s : Stream) :
    (processBufferCallback DataCallbackResult.Continue SL_RESULT_SUCCESS s).1.mFramesPerCallback
        = s.mFramesPerCallback ∧
    (processBufferCallback DataCallbackResult.Continue SL_RESULT_SUCCESS s).1.mDirection
        = s.mDirection ∧
    (processBufferCallback DataCallbackResult.Continue SL_RESULT_SUCCESS s).1.directionCounter
        = wrapInt64 (s.directionCounter + s.mFramesPerCallback) ∧
    (processBufferCallback DataCallbackResult.Continue SL_RESULT_SUCCESS s).2.count
        Event.requestStop = 0 := by
  rw [processBufferCallback_continued]
  by_cases hd : s.mDirection = Direction.Input <;> simp [hd, Stream.directionCounter]

/-- The state and trace after `N` continued invocations, by induction on `N`,
for a counter that starts within `int64_t`. -/
theorem processBufferCallbacks_continued (N : Nat) :
    ∀ s : Stream, -9223372036854775808 ≤ s.directionCounter →
      s.directionCounter ≤ 9223372036854775807 →
      (processBufferCallbacks (List.replicate N CallbackStep.continued) s).1.mFramesPerCallback
          = s.mFramesPerCallback ∧
      (processBufferCallbacks (List.replicate N CallbackStep.continued) s).1.mDirection
          = s.mDirection ∧
      (processBufferCallbacks (List.replicate N CallbackStep.continued) s).1.directionCounter
          = wrapInt64 (s.directionCounter + (N : Int) * s.mFramesPerCallback) ∧
      (processBufferCallbacks (List.replicate N CallbackStep.continued) s).2.count
          Event.requestStop = 0 := by
  induction N with
  | zero =>
    intro s hlo hhi
    simp [processBufferCallbacks, wrapInt64_of_inRange _ hlo hhi]
  | succ n ih =>
    intro s _ _
    have h1 := processBufferCallback_continued_fields s
    have hr := wrapInt64_inRange (s.directionCounter + s.mFramesPerCallback)
    have h2 := ih (processBufferCallback DataCallbackResult.Continue SL_RESULT_SUCCESS s).1
      (by rw [h1.2.2.1]; exact hr.1) (by rw [h1.2.2.1]; exact hr.2)
    simp only [List.replicate_succ, processBufferCallbacks, CallbackStep.continued] at h2 ⊢
    refine ⟨by rw [h2.1, h1.1], by rw [h2.2.1, h1.2.1], ?_, ?_⟩
    · rw [h2.2.2.1, h1.2.2.1, h1.1, wrapInt64_add_wrapInt64]
      congr 1
      push_cast
      ring
    · rw [List.count_append, h2.2.2.2, h1.2.2.2]

/-- C6, as stated, fails: with `mFramesWritten` at 2^63 - 1 and one frame per
callback, one continued callback on an Output stream leaves the counter at
-2^63, not at 2^63. -/
theorem processBufferCallbacks_counter_wraps :
    (processBufferCallbacks (List.replicate 1 CallbackStep.continued)
        Stream.saturated).1.directionCounter = -9223372036854775808 ∧
    (processBufferCallbacks (List.replicate 1 CallbackStep.continued)
        Stream.saturated).1.directionCounter ≠
      Stream.saturated.directionCounter + ((1 : Nat) : Int) * Stream.saturated.mFramesPerCallback := by
  decide

/-- C6 (amended): for every `N`, every callback size and every initial
`int64_t` counter value, after `N` consecutive `processBufferCallback`
invocations in which the client returns Continue and the enqueue succeeds,
the direction's counter (`mFramesRead` for Input, `mFramesWritten` for Output)
is the initial value plus `N * mFramesPerCallback` reduced to `int64_t`; it
has grown by exactly `N * mFramesPerCallback` whenever that sum fits in
`int64_t` (so starting from 0 it equals the product whenever the product
fits); and `requestStop` has not been called. -/
theorem processBufferCallbacks_counter_exact (N : Nat) (s : Stream)
    (hlo : -9223372036854775808 ≤ s.directionCounter)
    (hhi : s.directionCounter ≤ 9223372036854775807) :
    (processBufferCallbacks (List.replicate N CallbackStep.continued) s).1.directionCounter
        = wrapInt64 (s.directionCounter + (N : Int) * s.mFramesPerCallback) ∧
    (-9223372036854775808 ≤ s.directionCounter + (N : Int) * s.mFramesPerCallback →
      s.directionCounter + (N : Int) * s.mFramesPerCallback ≤ 9223372036854775807 →
      (processBufferCallbacks (List.replicate N CallbackStep.continued) s).1.directionCounter
        = s.directionCounter + (N : Int) * s.mFramesPerCallback) ∧
    (s.directionCounter = 0 →
      -9223372036854775808 ≤ (N : Int) * s.mFramesPerCallback →
      (N : Int) * s.mFramesPerCallback ≤ 9223372036854775807 →
      (processBufferCallbacks (List.replicate N CallbackStep.continued) s).1.directionCounter
        = (N : Int) * s.mFramesPerCallback) ∧
    (processBufferCallbacks (List.replicate N CallbackStep.continued) s).2.count
        Event.requestStop = 0 := by
  have h := processBufferCallbacks_continued N s hlo hhi
  refine ⟨h.2.2.1, ?_, ?_, h.2.2.2⟩
  · intro hfl hfh
    rw [h.2.2.1, wrapInt64_of_inRange _ hfl hfh]
  · intro h0 hfl hfh
    rw [h.2.2.1, h0, zero_add, wrapInt64_of_inRange _ hfl hfh]

/-- Witness for C6 (amended): three continued callbacks of 256 frames on an
Input stream that starts at 0 leave `mFramesRead` at 768. -/
theorem processBufferCallbacks_counter_exact_witness :
    (processBufferCallbacks (List.replicate 3 CallbackStep.continued)
        Stream.recording).1.directionCounter = ((3 : Nat) : Int) * Stream.recording.mFramesPerCallback :=
  (processBufferCallbacks_counter_exact 3 Stream.recording (by decide) (by decide)).2.2.1
    (by decide) (by decide) (by decide)

/-- C7: for every stream state, an invocation whose client callback returns
Stop calls `requestStop` exactly once, performs no Enqueue, and leaves
`mFramesRead` and `mFramesWritten` (indeed every field) unchanged. -/
theorem processBufferCallback_stop (enqueueResult : Nat) (s : Stream) :
    processBufferCallback DataCallbackResult.Stop enqueueResult s =
        (s, [Event.fireDataCallback s.mFramesPerCallback, Event.requestStop]) ∧
    (processBufferCallback DataCallbackResult.Stop enqueueResult s).2.count Event.requestStop = 1 ∧
    (∀ numBytes : Int,
      Event.enqueue numBytes ∉ (processBufferCallback DataCallbackResult.Stop enqueueResult s).2) ∧
    (processBufferCallback DataCallbackResult.Stop enqueueResult s).1.mFramesRead = s.mFramesRead ∧
    (processBufferCallback DataCallbackResult.Stop enqueueResult s).1.mFramesWritten
        = s.mFramesWritten := by
  have h : processBufferCallback DataCallbackResult.Stop enqueueResult s =
      (s, [Event.fireDataCallback s.mFramesPerCallback, Event.requestStop]) := by
    simp [processBufferCallback]
  rw [h]
  simp

/-- C8: for every client result and every enqueue outcome,
`processBufferCallback` calls `requestStop` exactly once if the client result
is not Continue or the re-enqueue fails, and not at all otherwise; Stop and
any other result that is not Continue have identical effects; and when the
result is Continue but the enqueue fails, the direction's counter is still
advanced by `mFramesPerCallback`: the stream is left exactly as after a
successful enqueue, the counter being the old value plus `mFramesPerCallback`
in `int64_t`, which is the exact sum whenever that fits. -/
theorem processBufferCallback_stop_policy (callbackResult : DataCallbackResult)
    (enqueueResult : Nat) (s : Stream) :
    (processBufferCallback callbackResult enqueueResult s).2.count Event.requestStop =
        (if callbackResult ≠ DataCallbackResult.Continue ∨ enqueueResult ≠ SL_RESULT_SUCCESS
          then 1 else 0) ∧
    (∀ (code : Int) (otherEnqueueResult : Nat),
      processBufferCallback (DataCallbackResult.Unexpected code) otherEnqueueResult s =
        processBufferCallback DataCallbackResult.Stop enqueueResult s) ∧
    (callbackResult = DataCallbackResult.Continue → enqueueResult ≠ SL_RESULT_SUCCESS →
      (processBufferCallback callbackResult enqueueResult s).1 =
        (processBufferCallback DataCallbackResult.Continue SL_RESULT_SUCCESS s).1 ∧
      (processBufferCallback callbackResult enqueueResult s).1.directionCounter =
        wrapInt64 (s.directionCounter + s.mFramesPerCallback) ∧
      (-9223372036854775808 ≤ s.directionCounter + s.mFramesPerCallback →
        s.directionCounter + s.mFramesPerCallback ≤ 9223372036854775807 →
        (processBufferCallback callbackResult enqueueResult s).1.directionCounter =
          s.directionCounter + s.mFramesPerCallback)) := by
  refine ⟨?_, ?_, ?_⟩
  · cases callbackResult with
    | Continue =>
      by_cases he : enqueueResult = SL_RESULT_SUCCESS <;>
        by_cases hd : s.mDirection = Direction.Input <;>
        simp [processBufferCallback, he, hd]
    | Stop => simp [processBufferCallback]
    | Unexpected code => simp [processBufferCallback]
  · intro code other
    simp [processBufferCallback]
  · intro hc he
    subst hc
    have hsame : (processBufferCallback DataCallbackResult.Continue enqueueResult s).1 =
        (processBufferCallback DataCallbackResult.Continue SL_RESULT_SUCCESS s).1 := by
      by_cases hd : s.mDirection = Direction.Input <;>
        simp [processBufferCallback, he, hd]
    have hcount := (processBufferCallback_continued_fields s).2.2.1
    rw [hsame]
    refine ⟨rfl, hcount, ?_⟩
    intro hfl hfh
    rw [hcount, wrapInt64_of_inRange _ hfl hfh]

/-- Witness for C8: the client continues, the enqueue fails with code 7, and
the Input stream still counts its 256 frames. -/
theorem processBufferCallback_stop_policy_witness :
    (processBufferCallback DataCallbackResult.Continue 7 Stream.recording).1.directionCounter =
      Stream.recording.directionCounter + Stream.recording.mFramesPerCallback :=
  ((processBufferCallback_stop_policy DataCallbackResult.Continue 7 Stream.recording).2.2
    rfl (by decide)).2.2 (by decide) (by decide)

/-! ## Close sequence -/

/-- C9: for every stream whose state is not Closed, the first `close_l` returns
OK and leaves the state Closed, and a second `close_l` returns ErrorClosed,
changes no field and makes no call at all (none of
`AudioStreamBuffered::close`, `onBeforeDestroy`, `Destroy`, `onAfterDestroy`
or the engine's `close`). -/
theorem close_l_twice (H : CloseHooks) (s : Stream) (h : s.mState ≠ StreamState.Closed) :
    (close_l H s).1 = Result.OK ∧
    (close_l H s).2.1.mState = StreamState.Closed ∧
    close_l H (close_l H s).2.1 = (Result.ErrorClosed, (close_l H s).2.1, []) := by
  have hstate : (close_l H s).2.1.mState = StreamState.Closed := by
    unfold close_l
    rw [if_neg h]
  refine ⟨?_, hstate, ?_⟩
  · unfold close_l
    rw [if_neg h]
  · generalize (close_l H s).2.1 = s2 at hstate
    unfold close_l
    rw [if_pos hstate]

/-- Witness for C9: closing an open stream twice. -/
theorem close_l_twice_witness :
    (close_l CloseHooks.inert Stream.opened).1 = Result.OK ∧
    (close_l CloseHooks.inert Stream.opened).2.1.mState = StreamState.Closed ∧
    close_l CloseHooks.inert (close_l CloseHooks.inert Stream.opened).2.1 =
      (Result.ErrorClosed, (close_l CloseHooks.inert Stream.opened).2.1, []) :=
  close_l_twice CloseHooks.inert Stream.opened (by decide)

/-! ## Position estimate -/

/-- C10, as stated, fails: at 48000 Hz with the position counter at
200000000000000 ms (a multiple of 1000) the 64-bit product overflows and the
function returns -8846744073709551, not 200000000000 * 48000. -/
theorem getFramesProcessedByServer_overflow :
    Stream.longRunning.mPositionMillis % 1000 = 0 ∧
    (getFramesProcessedByServer id Stream.longRunning).1 = -8846744073709551 ∧
    (getFramesProcessedByServer id Stream.longRunning).1 ≠
      Stream.longRunning.mPositionMillis / 1000 * Stream.longRunning.mSampleRate := by
  decide

/-- C10 (amended): `getFramesProcessedByServer` returns the truncating quotient
by 1000 of the `int64_t` product of `mPositionMillis` (read after
`updateServiceFrameCounter`) and the sample rate; for 1000 ms at 44100 Hz it
returns 44100; and for every position that is a multiple of 1000 and whose
product with the sample rate fits in `int64_t` it returns exactly
(position / 1000) * sampleRate. -/
theorem getFramesProcessedByServer_estimate (updateServiceFrameCounter : Stream → Stream)
    (s : Stream) :
    (getFramesProcessedByServer updateServiceFrameCounter s).1 =
      Int.tdiv (wrapInt64 ((updateServiceFrameCounter s).mPositionMillis *
        (updateServiceFrameCounter s).mSampleRate)) 1000 ∧
    ((updateServiceFrameCounter s).mPositionMillis = 1000 →
      (updateServiceFrameCounter s).mSampleRate = 44100 →
      (getFramesProcessedByServer updateServiceFrameCounter s).1 = 44100) ∧
    ((updateServiceFrameCounter s).mPositionMillis % 1000 = 0 →
      -9223372036854775808 ≤ (updateServiceFrameCounter s).mPositionMillis *
        (updateServiceFrameCounter s).mSampleRate →
      (updateServiceFrameCounter s).mPositionMillis *
        (updateServiceFrameCounter s).mSampleRate ≤ 9223372036854775807 →
      (getFramesProcessedByServer updateServiceFrameCounter s).1 =
        (updateServiceFrameCounter s).mPositionMillis / 1000 *
          (updateServiceFrameCounter s).mSampleRate) := by
  refine ⟨rfl, ?_, ?_⟩
  · intro hm hr
    simp only [getFramesProcessedByServer, hm, hr]
    decide
  · intro hmul hlo hhi
    simp only [getFramesProcessedByServer, kMillisPerSecond]
    rw [wrapInt64_of_inRange _ hlo hhi]
    obtain ⟨k, hk⟩ : ∃ k, (updateServiceFrameCounter s).mPositionMillis = 1000 * k :=
      ⟨(updateServiceFrameCounter s).mPositionMillis / 1000, by omega⟩
    rw [hk, Int.mul_assoc, Int.mul_tdiv_cancel_left _ (by decide : (1000 : Int) ≠ 0),
      Int.mul_ediv_cancel_left _ (by decide : (1000 : Int) ≠ 0)]

/-- Witness for C10 (amended): 1000 ms at 44100 Hz give 44100 frames. -/
theorem getFramesProcessedByServer_estimate_witness :
    (getFramesProcessedByServer id Stream.oneSecond).1 = 44100 :=
  (getFramesProcessedByServer_estimate id Stream.oneSecond).2.1 rfl rfl

/-! ## Buffer sizing policy: burst resolution, failure policy, sample rate -/

/-- What `resolveBurst` leaves in the fields it can touch, and that it touches
no other field the sizing policy writes. -/
theorem resolveBurst_fields (P : Platform) (sampleRate : Int) (s : Stream) :
    (resolveBurst P sampleRate s).mFramesPerBurst =
        (if s.mFramesPerCallback ≠ P.kUnspecified then s.mFramesPerCallback
          else P.defaultFramesPerBurst) ∧
    (resolveBurst P sampleRate s).mFramesPerCallback =
        (if s.mFramesPerCallback ≠ P.kUnspecified then s.mFramesPerCallback
          else P.defaultFramesPerBurst) ∧
    (resolveBurst P sampleRate s).mCallbackBuffer = s.mCallbackBuffer ∧
    (resolveBurst P sampleRate s).mBufferCapacityInFrames = s.mBufferCapacityInFrames ∧
    (resolveBurst P sampleRate s).mBufferSizeInFrames = s.mBufferSizeInFrames := by
  unfold resolveBurst
  by_cases h : s.mFramesPerCallback = P.kUnspecified <;> simp [h]

/-- No branch of `configureBufferSizes` touches the resolved burst size. -/
theorem configureBufferSizes_framesPerBurst (P : Platform) (bytesPerFrame : Int)
    (usingFIFO : Bool) (sampleRate : Int) (s : Stream) :
    (configureBufferSizes P bytesPerFrame usingFIFO sampleRate s).2.mFramesPerBurst =
      (resolveBurst P sampleRate s).mFramesPerBurst := by
  unfold configureBufferSizes
  cases usingFIFO <;> simp only [] <;> split_ifs <;> simp_all

/-- C11: for every initial `mFramesPerCallback` and `mFramesPerBurst`, if
`mFramesPerCallback` is not `kUnspecified` then `configureBufferSizes` sets
`mFramesPerBurst` to it and leaves `mFramesPerCallback` as it was; otherwise
it sets both to `DefaultStreamValues::FramesPerBurst`. After every call,
whatever its result, `mFramesPerCallback = mFramesPerBurst`, so
`mFramesPerBurst ≤ mFramesPerCallback`. -/
theorem configureBufferSizes_burst_resolution (P : Platform) (bytesPerFrame : Int)
    (usingFIFO : Bool) (sampleRate : Int) (s : Stream) :
    (s.mFramesPerCallback ≠ P.kUnspecified →
      (configureBufferSizes P bytesPerFrame usingFIFO sampleRate s).2.mFramesPerBurst
          = s.mFramesPerCallback ∧
      (configureBufferSizes P bytesPerFrame usingFIFO sampleRate s).2.mFramesPerCallback
          = s.mFramesPerCallback) ∧
    (s.mFramesPerCallback = P.kUnspecified →
      (configureBufferSizes P bytesPerFrame usingFIFO sampleRate s).2.mFramesPerBurst
          = P.defaultFramesPerBurst ∧
      (configureBufferSizes P bytesPerFrame usingFIFO sampleRate s).2.mFramesPerCallback
          = P.defaultFramesPerBurst) ∧
    (configureBufferSizes P bytesPerFrame usingFIFO sampleRate s).2.mFramesPerCallback =
      (configureBufferSizes P bytesPerFrame usingFIFO sampleRate s).2.mFramesPerBurst ∧
    (configureBufferSizes P bytesPerFrame usingFIFO sampleRate s).2.mFramesPerBurst ≤
      (configureBufferSizes P bytesPerFrame usingFIFO sampleRate s).2.mFramesPerCallback := by
  have hb := configureBufferSizes_framesPerBurst P bytesPerFrame usingFIFO sampleRate s
  have hc := configureBufferSizes_framesPerCallback P bytesPerFrame usingFIFO sampleRate s
  have hr := resolveBurst_fields P sampleRate s
  rw [hb, hc, hr.1, hr.2.1]
  refine ⟨?_, ?_, rfl, le_refl _⟩
  · intro h
    simp [h]
  · intro h
    simp [h]

/-- Witness for C11: a request for 480 frames replaces the earlier burst size
64 and is itself kept. -/
theorem configureBufferSizes_burst_resolution_witness :
    (configureBufferSizes Platform.sample 4 false 48000 Stream.requested).2.mFramesPerBurst
        = Stream.requested.mFramesPerCallback ∧
    (configureBufferSizes Platform.sample 4 false 48000 Stream.requested).2.mFramesPerCallback
        = Stream.requested.mFramesPerCallback :=
  (configureBufferSizes_burst_resolution Platform.sample 4 false 48000 Stream.requested).1
    (by decide)

/-- C19: the result and the final state of `configureBufferSizes`, hence each
of `mFramesPerBurst`, `mFramesPerCallback`, `mBytesPerCallback`,
`mBufferCapacityInFrames` and `mBufferSizeInFrames`, do not depend on the
`sampleRate` argument: two runs from the same stream state with different
sample rates return the same result and leave the same state. -/
theorem configureBufferSizes_sampleRate_independent (P : Platform) (bytesPerFrame : Int)
    (usingFIFO : Bool) (sampleRateA sampleRateB : Int) (s : Stream) :
    (configureBufferSizes P bytesPerFrame usingFIFO sampleRateA s).1 =
        (configureBufferSizes P bytesPerFrame usingFIFO sampleRateB s).1 ∧
    (configureBufferSizes P bytesPerFrame usingFIFO sampleRateA s).2 =
        (configureBufferSizes P bytesPerFrame usingFIFO sampleRateB s).2 := by
  have h : resolveBurst P sampleRateA s = resolveBurst P sampleRateB s := by
    unfold resolveBurst
    rfl
  unfold configureBufferSizes
  rw [h]
  exact ⟨rfl, rfl⟩

/-! ## Buffer-queue callback bridge: counters -/

/-- C13, as stated, fails: with `mFramesPerCallback = 1 ≥ 0` and
`mFramesWritten` at 2^63 - 1, a continued callback on an Output stream leaves
`mFramesWritten` at -2^63, below its previous value. -/
theorem processBufferCallback_counter_decreases :
    0 ≤ Stream.saturated.mFramesPerCallback ∧
    (processBufferCallback DataCallbackResult.Continue SL_RESULT_SUCCESS
        Stream.saturated).1.mFramesWritten = -9223372036854775808 ∧
    (processBufferCallback DataCallbackResult.Continue SL_RESULT_SUCCESS
        Stream.saturated).1.mFramesWritten < Stream.saturated.mFramesWritten := by
  decide

/-- C13 (amended): for every `processBufferCallback` invocation with
`mFramesPerCallback ≥ 0` in which the direction's `int64_t` counter plus
`mFramesPerCallback` does not exceed 2^63 - 1, neither `mFramesRead` nor
`mFramesWritten` decreases. For every invocation, an Input stream never
modifies `mFramesWritten` and an Output stream never modifies `mFramesRead`,
and a counter changes only when the client callback returned Continue. -/
theorem processBufferCallback_counters_monotone (callbackResult : DataCallbackResult)
    (enqueueResult : Nat) (s : Stream) :
    (0 ≤ s.mFramesPerCallback → -9223372036854775808 ≤ s.directionCounter →
      s.directionCounter + s.mFramesPerCallback ≤ 9223372036854775807 →
      s.mFramesRead ≤ (processBufferCallback callbackResult enqueueResult s).1.mFramesRead ∧
      s.mFramesWritten ≤
        (processBufferCallback callbackResult enqueueResult s).1.mFramesWritten) ∧
    (s.mDirection = Direction.Input →
      (processBufferCallback callbackResult enqueueResult s).1.mFramesWritten
        = s.mFramesWritten) ∧
    (s.mDirection = Direction.Output →
      (processBufferCallback callbackResult enqueueResult s).1.mFramesRead = s.mFramesRead) ∧
    (((processBufferCallback callbackResult enqueueResult s).1.mFramesRead ≠ s.mFramesRead ∨
      (processBufferCallback callbackResult enqueueResult s).1.mFramesWritten
        ≠ s.mFramesWritten) →
      callbackResult = DataCallbackResult.Continue) := by
  cases callbackResult with
  | Continue =>
    by_cases hd : s.mDirection = Direction.Input
    · refine ⟨?_, ?_, ?_, ?_⟩
      · intro h hlo hfit
        simp only [Stream.directionCounter, hd, if_true] at hlo hfit
        have hw := wrapInt64_of_inRange (s.mFramesRead + s.mFramesPerCallback)
          (by omega) hfit
        by_cases he : enqueueResult = SL_RESULT_SUCCESS <;>
          simp [processBufferCallback, he, hd, hw, h]
      · intro _
        by_cases he : enqueueResult = SL_RESULT_SUCCESS <;>
          simp [processBufferCallback, he, hd]
      · intro ho
        rw [hd] at ho
        exact absurd ho (by decide)
      · intro _
        rfl
    · refine ⟨?_, ?_, ?_, ?_⟩
      · intro h hlo hfit
        simp only [Stream.directionCounter, hd, if_false] at hlo hfit
        have hw := wrapInt64_of_inRange (s.mFramesWritten + s.mFramesPerCallback)
          (by omega) hfit
        by_cases he : enqueueResult = SL_RESULT_SUCCESS <;>
          simp [processBufferCallback, he, hd, hw, h]
      · intro hi
        exact absurd hi hd
      · intro _
        by_cases he : enqueueResult = SL_RESULT_SUCCESS <;>
          simp [processBufferCallback, he, hd]
      · intro _
        rfl
  | Stop => simp [processBufferCallback]
  | Unexpected code => simp [processBufferCallback]

/-- Witness for C13 (amended): a continued callback of 256 frames on an Input
stream whose counter is 0. -/
theorem processBufferCallback_counters_monotone_witness :
    (Stream.recording.mFramesRead ≤
        (processBufferCallback DataCallbackResult.Continue 0 Stream.recording).1.mFramesRead ∧
      Stream.recording.mFramesWritten ≤
        (processBufferCallback DataCallbackResult.Continue 0 Stream.recording).1.mFramesWritten) ∧
    (processBufferCallback DataCallbackResult.Continue 0 Stream.recording).1.mFramesWritten
        = Stream.recording.mFramesWritten :=
  ⟨(processBufferCallback_counters_monotone DataCallbackResult.Continue 0 Stream.recording).1
      (by decide) (by decide) (by decide),
    (processBufferCallback_counters_monotone DataCallbackResult.Continue 0
      Stream.recording).2.1 rfl⟩

/-! ## Open -/

/-- When the engine cannot be opened, `open()` returns ErrorInternal, the
buffered layer is not called, no field changes and no engine handle is held. -/
theorem open_engine_failure (P : Platform) (engineResult : Nat)
    (bufferedOpen : Stream → Result × Stream) (s : Stream)
    (h : engineResult ≠ SL_RESULT_SUCCESS) :
    Stream.open P engineResult bufferedOpen s =
        (Result.ErrorInternal, s, [Event.engineOpen engineResult]) ∧
    engineHandlesHeld (Stream.open P engineResult bufferedOpen s).2.2 = 0 := by
  have h2 : SL_RESULT_SUCCESS ≠ engineResult := fun e => h e.symm
  have hrun : Stream.open P engineResult bufferedOpen s =
      (Result.ErrorInternal, s, [Event.engineOpen engineResult]) := by
    unfold Stream.open
    rw [if_pos h2]
  rw [hrun]
  refine ⟨rfl, ?_⟩
  have hne : Event.engineOpen engineResult ≠ Event.engineOpen SL_RESULT_SUCCESS := by
    intro e
    injection e with e2
    exact h e2
  simp [engineHandlesHeld, List.count_cons, hne]

/-- When the engine opens and the buffered layer fails, `open()` returns the
buffered layer's result after two calls, neither of which is the engine's
`close()`: the handle acquired at line 71 is still held. -/
theorem open_buffered_failure (P : Platform) (bufferedOpen : Stream → Result × Stream)
    (s : Stream) (h : (bufferedOpen s).1 ≠ Result.OK) :
    Stream.open P SL_RESULT_SUCCESS bufferedOpen s =
        ((bufferedOpen s).1, (bufferedOpen s).2,
          [Event.engineOpen SL_RESULT_SUCCESS, Event.bufferedOpen (bufferedOpen s).1]) ∧
    engineHandlesHeld (Stream.open P SL_RESULT_SUCCESS bufferedOpen s).2.2 = 1 := by
  have hrun : Stream.open P SL_RESULT_SUCCESS bufferedOpen s =
      ((bufferedOpen s).1, (bufferedOpen s).2,
        [Event.engineOpen SL_RESULT_SUCCESS, Event.bufferedOpen (bufferedOpen s).1]) := by
    unfold Stream.open
    simp [h]
  rw [hrun]
  refine ⟨rfl, ?_⟩
  simp [engineHandlesHeld]

/-- C12 (evaluation at the failing input): the engine opens, the buffered
layer's `open()` fails with ErrorInvalidFormat, and `open()` returns that error
after exactly the two calls engine `open()` and buffered `open()`; the engine's
`close()` is not called, so one engine handle is left held. -/
theorem open_leaks_engine_handle :
    (Stream.open Platform.sample SL_RESULT_SUCCESS bufferedOpenFails Stream.fresh).1
        = Result.ErrorInvalidFormat ∧
    (Stream.open Platform.sample SL_RESULT_SUCCESS bufferedOpenFails Stream.fresh).2.2
        = [Event.engineOpen SL_RESULT_SUCCESS, Event.bufferedOpen Result.ErrorInvalidFormat] ∧
    Event.engineClose ∉
      (Stream.open Platform.sample SL_RESULT_SUCCESS bufferedOpenFails Stream.fresh).2.2 ∧
    engineHandlesHeld
      (Stream.open Platform.sample SL_RESULT_SUCCESS bufferedOpenFails Stream.fresh).2.2 = 1 := by
  decide

/-- The state a successful `open()` leaves: the state the buffered layer
returned, with the two unspecified fields resolved and the sharing mode set. -/
theorem open_success_fields (P : Platform) (engineResult : Nat)
    (bufferedOpen : Stream → Result × Stream) (s : Stream)
    (hok : (Stream.open P engineResult bufferedOpen s).1 = Result.OK) :
    (Stream.open P engineResult bufferedOpen s).2.1.mSampleRate =
        (if (bufferedOpen s).2.mSampleRate ≠ P.kUnspecified then (bufferedOpen s).2.mSampleRate
          else P.defaultSampleRate) ∧
    (Stream.open P engineResult bufferedOpen s).2.1.mChannelCount =
        (if (bufferedOpen s).2.mChannelCount ≠ P.kUnspecified then (bufferedOpen s).2.mChannelCount
          else P.defaultChannelCount) ∧
    (Stream.open P engineResult bufferedOpen s).2.1.mSharingMode = SharingMode.Shared := by
  by_cases he : engineResult ≠ SL_RESULT_SUCCESS
  · rw [(open_engine_failure P engineResult bufferedOpen s he).1] at hok
    simp at hok
  · have heq : engineResult = SL_RESULT_SUCCESS := not_not.mp he
    subst heq
    by_cases hb : (bufferedOpen s).1 ≠ Result.OK
    · rw [(open_buffered_failure P bufferedOpen s hb).1] at hok
      exact absurd hok hb
    · unfold Stream.open
      by_cases hr : (bufferedOpen s).2.mSampleRate = P.kUnspecified <;>
        by_cases hc : (bufferedOpen s).2.mChannelCount = P.kUnspecified <;>
        simp [hb, hr, hc]

/-- C16: after every successful `open()`, `mSampleRate` is the value it had
when the resolution at lines 80-86 began if that was not `kUnspecified` and
`DefaultStreamValues::SampleRate` otherwise, `mChannelCount` likewise with
`DefaultStreamValues::ChannelCount`, and `mSharingMode` is Shared; when the
buffered layer's `open()` leaves the two fields alone, these are the values
the stream had on entry. If the platform defaults are not `kUnspecified`,
neither resolved field is `kUnspecified`. -/
theorem open_resolves_unspecified (P : Platform) (engineResult : Nat)
    (bufferedOpen : Stream → Result × Stream) (s : Stream)
    (hok : (Stream.open P engineResult bufferedOpen s).1 = Result.OK) :
    (Stream.open P engineResult bufferedOpen s).2.1.mSampleRate =
        (if (bufferedOpen s).2.mSampleRate ≠ P.kUnspecified then (bufferedOpen s).2.mSampleRate
          else P.defaultSampleRate) ∧
    (Stream.open P engineResult bufferedOpen s).2.1.mChannelCount =
        (if (bufferedOpen s).2.mChannelCount ≠ P.kUnspecified then (bufferedOpen s).2.mChannelCount
          else P.defaultChannelCount) ∧
    (Stream.open P engineResult bufferedOpen s).2.1.mSharingMode = SharingMode.Shared ∧
    ((bufferedOpen s).2.mSampleRate = s.mSampleRate →
      (Stream.open P engineResult bufferedOpen s).2.1.mSampleRate =
        (if s.mSampleRate ≠ P.kUnspecified then s.mSampleRate else P.defaultSampleRate)) ∧
    ((bufferedOpen s).2.mChannelCount = s.mChannelCount →
      (Stream.open P engineResult bufferedOpen s).2.1.mChannelCount =
        (if s.mChannelCount ≠ P.kUnspecified then s.mChannelCount else P.defaultChannelCount)) ∧
    (P.defaultSampleRate ≠ P.kUnspecified →
      (Stream.open P engineResult bufferedOpen s).2.1.mSampleRate ≠ P.kUnspecified) ∧
    (P.defaultChannelCount ≠ P.kUnspecified →
      (Stream.open P engineResult bufferedOpen s).2.1.mChannelCount ≠ P.kUnspecified) := by
  have hf := open_success_fields P engineResult bufferedOpen s hok
  refine ⟨hf.1, hf.2.1, hf.2.2, ?_, ?_, ?_, ?_⟩
  · intro hkeep
    rw [hf.1, hkeep]
  · intro hkeep
    rw [hf.2.1, hkeep]
  · intro hd
    rw [hf.1]
    by_cases hr : (bufferedOpen s).2.mSampleRate = P.kUnspecified
    · simpa [hr] using hd
    · simp [hr]
  · intro hd
    rw [hf.2.1]
    by_cases hc : (bufferedOpen s).2.mChannelCount = P.kUnspecified
    · simpa [hc] using hd
    · simp [hc]

/-- Witness for C16: a stream built with 44100 Hz and no channel count opens
with 44100 Hz, the default 2 channels and the Shared mode. -/
theorem open_resolves_unspecified_witness :
    (Stream.open Platform.sample SL_RESULT_SUCCESS bufferedOpenSucceeds
        Stream.halfSpecified).2.1.mSampleRate =
      (if (bufferedOpenSucceeds Stream.halfSpecified).2.mSampleRate ≠ Platform.sample.kUnspecified
        then (bufferedOpenSucceeds Stream.halfSpecified).2.mSampleRate
        else Platform.sample.defaultSampleRate) ∧
    (Stream.open Platform.sample SL_RESULT_SUCCESS bufferedOpenSucceeds
        Stream.halfSpecified).2.1.mChannelCount =
      (if (bufferedOpenSucceeds Stream.halfSpecified).2.mChannelCount ≠ Platform.sample.kUnspecified
        then (bufferedOpenSucceeds Stream.halfSpecified).2.mChannelCount
        else Platform.sample.defaultChannelCount) ∧
    (Stream.open Platform.sample SL_RESULT_SUCCESS bufferedOpenSucceeds
        Stream.halfSpecified).2.1.mSharingMode = SharingMode.Shared :=
  ⟨(open_resolves_unspecified Platform.sample SL_RESULT_SUCCESS bufferedOpenSucceeds
      Stream.halfSpecified (by decide)).1,
    (open_resolves_unspecified Platform.sample SL_RESULT_SUCCESS bufferedOpenSucceeds
      Stream.halfSpecified (by decide)).2.1,
    (open_resolves_unspecified Platform.sample SL_RESULT_SUCCESS bufferedOpenSucceeds
      Stream.halfSpecified (by decide)).2.2.1⟩

/-! ## Close sequence: order of the teardown -/

/-- The result, final state and trace of `close_l` on a stream that is not
Closed. -/
theorem close_l_not_closed (H : CloseHooks) (s : Stream) (h : s.mState ≠ StreamState.Closed) :
    close_l H s =
      (Result.OK,
        { H.onAfterDestroy
            { H.onBeforeDestroy (H.bufferedClose s) with mObjectInterface := none } with
          mSimpleBufferQueueInterface := none, mState := StreamState.Closed },
        [Event.bufferedClose, Event.onBeforeDestroy] ++
          (match (H.onBeforeDestroy (H.bufferedClose s)).mObjectInterface with
            | some object => [Event.destroy object]
            | none => []) ++
          [Event.onAfterDestroy, Event.clearBufferQueueInterface, Event.engineClose,
            Event.setState StreamState.Closed]) := by
  unfold close_l
  rw [if_neg h]
  dsimp only
  generalize H.onBeforeDestroy (H.bufferedClose s) = before
  rcases before with ⟨st, dir, rate, chans, mode, burst, fpc, bytes, buf, cap, size, rd, wr, pos,
    object, queue⟩
  cases object <;> rfl

/-- C14: for every stream whose state is not Closed, `close_l` returns OK after
performing, in this order, `AudioStreamBuffered::close`, `onBeforeDestroy`,
`Destroy` of the native object (only if `mObjectInterface` is non-null at that
point; either way `mObjectInterface` is null when `onAfterDestroy` is entered),
`onAfterDestroy`, the write of null to `mSimpleBufferQueueInterface`, the
engine's `close`, and the write of Closed to the state. Each step occurs
exactly once, `Destroy` at most once, and exactly one engine handle is
released. -/
theorem close_l_teardown_order (H : CloseHooks) (s : Stream)
    (h : s.mState ≠ StreamState.Closed) :
    (close_l H s).1 = Result.OK ∧
    (close_l H s).2.2 =
      [Event.bufferedClose, Event.onBeforeDestroy] ++
        (match (H.onBeforeDestroy (H.bufferedClose s)).mObjectInterface with
          | some object => [Event.destroy object]
          | none => []) ++
        [Event.onAfterDestroy, Event.clearBufferQueueInterface, Event.engineClose,
          Event.setState StreamState.Closed] ∧
    (close_l H s).2.1 =
      { H.onAfterDestroy
          { H.onBeforeDestroy (H.bufferedClose s) with mObjectInterface := none } with
        mSimpleBufferQueueInterface := none, mState := StreamState.Closed } ∧
    ((∀ t : Stream, (H.onAfterDestroy t).mObjectInterface = t.mObjectInterface) →
      (close_l H s).2.1.mObjectInterface = none) ∧
    (close_l H s).2.1.mSimpleBufferQueueInterface = none ∧
    (close_l H s).2.1.mState = StreamState.Closed ∧
    (close_l H s).2.2.count Event.bufferedClose = 1 ∧
    (close_l H s).2.2.count Event.onBeforeDestroy = 1 ∧
    (close_l H s).2.2.count Event.onAfterDestroy = 1 ∧
    (close_l H s).2.2.count Event.clearBufferQueueInterface = 1 ∧
    (close_l H s).2.2.count Event.engineClose = 1 ∧
    (close_l H s).2.2.count (Event.setState StreamState.Closed) = 1 ∧
    ((close_l H s).2.2.filter Event.isDestroy).length ≤ 1 ∧
    ((H.onBeforeDestroy (H.bufferedClose s)).mObjectInterface = none →
      ((close_l H s).2.2.filter Event.isDestroy).length = 0) := by
  rw [close_l_not_closed H s h]
  refine ⟨rfl, rfl, rfl, ?_, rfl, rfl, ?_, ?_, ?_, ?_, ?_, ?_, ?_, ?_⟩
  · intro hkeep
    simp [hkeep]
  · cases (H.onBeforeDestroy (H.bufferedClose s)).mObjectInterface <;> simp
  · cases (H.onBeforeDestroy (H.bufferedClose s)).mObjectInterface <;> simp
  · cases (H.onBeforeDestroy (H.bufferedClose s)).mObjectInterface <;> simp
  · cases (H.onBeforeDestroy (H.bufferedClose s)).mObjectInterface <;> simp
  · cases (H.onBeforeDestroy (H.bufferedClose s)).mObjectInterface <;> simp
  · cases (H.onBeforeDestroy (H.bufferedClose s)).mObjectInterface <;> simp
  · cases (H.onBeforeDestroy (H.bufferedClose s)).mObjectInterface <;> simp [Event.isDestroy]
  · intro hnone
    rw [hnone]
    simp [Event.isDestroy]

/-- Witness for C14: closing an open stream that holds native object 7. -/
theorem close_l_teardown_order_witness :
    (close_l CloseHooks.inert Stream.opened).2.2 =
      [Event.bufferedClose, Event.onBeforeDestroy] ++
        (match (CloseHooks.inert.onBeforeDestroy
            (CloseHooks.inert.bufferedClose Stream.opened)).mObjectInterface with
          | some object => [Event.destroy object]
          | none => []) ++
        [Event.onAfterDestroy, Event.clearBufferQueueInterface, Event.engineClose,
          Event.setState StreamState.Closed] :=
  (close_l_teardown_order CloseHooks.inert Stream.opened (by decide)).2.1

/-! ## Channel mask -/

/-- C20: for every `int` channel count from 0 to 30,
`channelCountToChannelMaskDefault` returns `2 ^ channelCount - 1`, the mask
whose set bits are exactly the `channelCount` lowest ones; for every channel
count above 30 and for every negative one (which the comparison sees as an
unsigned value above 30) it returns 0, `SL_ANDROID_UNKNOWN_CHANNELMASK`. -/
theorem channelCountToChannelMaskDefault_mask (channelCount : Int)
    (hlo : -2147483648 ≤ channelCount) (hhi : channelCount ≤ 2147483647) :
    (0 ≤ channelCount → channelCount ≤ 30 →
      channelCountToChannelMaskDefault channelCount = 2 ^ channelCount.toNat - 1 ∧
      ∀ i : Nat, (channelCountToChannelMaskDefault channelCount).testBit i
        = decide (i < channelCount.toNat)) ∧
    (30 < channelCount →
      channelCountToChannelMaskDefault channelCount = SL_ANDROID_UNKNOWN_CHANNELMASK) ∧
    (channelCount < 0 →
      channelCountToChannelMaskDefault channelCount = SL_ANDROID_UNKNOWN_CHANNELMASK) ∧
    SL_ANDROID_UNKNOWN_CHANNELMASK = 0 := by
  refine ⟨?_, ?_, ?_, rfl⟩
  · intro h0 h30
    have hval : channelCountToChannelMaskDefault channelCount = 2 ^ channelCount.toNat - 1 := by
      interval_cases channelCount <;> decide
    refine ⟨hval, ?_⟩
    intro i
    rw [hval, Nat.testBit_two_pow_sub_one]
  · intro h
    have hmod : channelCount % 4294967296 = channelCount := by omega
    have hgt : (channelCount % 4294967296).toNat > kAudioChannelCountMax := by
      rw [hmod]
      unfold kAudioChannelCountMax
      omega
    unfold channelCountToChannelMaskDefault
    rw [if_pos hgt]
  · intro h
    have hmod : channelCount % 4294967296 = channelCount + 4294967296 := by omega
    have hgt : (channelCount % 4294967296).toNat > kAudioChannelCountMax := by
      rw [hmod]
      unfold kAudioChannelCountMax
      omega
    unfold channelCountToChannelMaskDefault
    rw [if_pos hgt]

/-- Witness for C20: two channels give the mask 3. -/
theorem channelCountToChannelMaskDefault_mask_witness :
    channelCountToChannelMaskDefault 2 = 2 ^ (2 : Int).toNat - 1 :=
  ((channelCountToChannelMaskDefault_mask 2 (by decide) (by decide)).1 (by decide)
    (by decide)).1

/-! ## Error translator -/

theorem SLResultCode.spelling_injective (a b : SLResultCode) (h : a.spelling = b.spelling) :
    a = b := by
  cases a <;> cases b <;> first | rfl | exact absurd h (by decide)

theorem SLResultCode.standardValue_injective : Function.Injective SLResultCode.standardValue := by
  intro a b h
  cases a <;> cases b <;> first | rfl | exact absurd h (by decide)

/-- On the value of a named code, the `switch` reaches that code's own case. -/
theorem getSLErrStr_named (value : SLResultCode → Nat) (hinj : Function.Injective value)
    (c : SLResultCode) : getSLErrStr value (value c) = c.spelling := by
  cases c <;> simp [getSLErrStr, SLResultCode.spelling, hinj.eq_iff]

/-- C17: `getSLErrStr` is a total function of the code alone. For each of the
17 named result codes, `SL_RESULT_SUCCESS` through `SL_RESULT_CONTROL_LOST`,
it returns the string that spells the code's own name; two different named
codes give different strings; and every code that is none of the 17 gives
"Unknown SL error", which is the name of no code. The values of the 17 macros
are any pairwise distinct numbers. -/
theorem getSLErrStr_lookup (value : SLResultCode → Nat) (hinj : Function.Injective value) :
    SLResultCode.all.length = 17 ∧
    (∀ c : SLResultCode, c ∈ SLResultCode.all) ∧
    (∀ c : SLResultCode, getSLErrStr value (value c) = c.spelling) ∧
    (∀ a b : SLResultCode, a ≠ b →
      getSLErrStr value (value a) ≠ getSLErrStr value (value b)) ∧
    (∀ code : Nat, (∀ c : SLResultCode, code ≠ value c) →
      getSLErrStr value code = "Unknown SL error") ∧
    (∀ c : SLResultCode, c.spelling ≠ "Unknown SL error") := by
  refine ⟨rfl, ?_, getSLErrStr_named value hinj, ?_, ?_, ?_⟩
  · intro c
    cases c <;> decide
  · intro a b hab heq
    rw [getSLErrStr_named value hinj, getSLErrStr_named value hinj] at heq
    exact hab (SLResultCode.spelling_injective a b heq)
  · intro code hother
    simp [getSLErrStr, hother]
  · intro c
    cases c <;> decide

/-- Witness for C17: with the standard values, code 13 is spelled
`SL_RESULT_INTERNAL_ERROR` and code 17 is unknown. -/
theorem getSLErrStr_lookup_witness :
    getSLErrStr SLResultCode.standardValue
        (SLResultCode.standardValue SLResultCode.INTERNAL_ERROR)
      = SLResultCode.INTERNAL_ERROR.spelling :=
  (getSLErrStr_lookup SLResultCode.standardValue
    SLResultCode.standardValue_injective).2.2.1 SLResultCode.INTERNAL_ERROR

/-! ## Polling wait: result and termination in general -/

/-- An iteration with time left and an unchanged state sleeps for the clamped
slice and goes round again. -/
theorem waitLoop_sleep (getState : Nat → StreamState) (currentState : StreamState)
    (fuel : Nat) (sleepTimeNanos timeLeftNanos : Int) (acc : WaitOutcome)
    (h : getState acc.reads = currentState) (ht : 0 < timeLeftNanos) :
    waitLoop getState currentState (fuel + 1) sleepTimeNanos timeLeftNanos acc =
      waitLoop getState currentState fuel
        (if sleepTimeNanos > timeLeftNanos then timeLeftNanos else sleepTimeNanos)
        (timeLeftNanos - (if sleepTimeNanos > timeLeftNanos then timeLeftNanos else sleepTimeNanos))
        { result := acc.result
          nextState := acc.nextState.map (fun _ => getState acc.reads)
          reads := acc.reads + 1
          sleeps := acc.sleeps ++
            [if sleepTimeNanos > timeLeftNanos then timeLeftNanos else sleepTimeNanos] } := by
  have ht2 : ¬ timeLeftNanos ≤ 0 := by omega
  rw [waitLoop]
  simp [h, ht2]

/-- With no time left the loop leaves in the current iteration, whatever the
slice is. -/
theorem waitLoop_exits_now (getState : Nat → StreamState) (currentState : StreamState)
    (fuel : Nat) (sleepTimeNanos timeLeftNanos : Int) (acc : WaitOutcome)
    (ht : timeLeftNanos ≤ 0) (hacc : acc.result = Result.ErrorTimeout) :
    ∃ out : WaitOutcome,
      waitLoop getState currentState (fuel + 1) sleepTimeNanos timeLeftNanos acc = some out ∧
      acc.reads < out.reads ∧
      (out.result = Result.OK ∨ out.result = Result.ErrorTimeout) ∧
      (out.result = Result.OK ↔ getState (out.reads - 1) ≠ currentState) ∧
      out.nextState = acc.nextState.map (fun _ => getState (out.reads - 1)) := by
  by_cases hch : getState acc.reads = currentState
  · rw [waitLoop_expired getState currentState fuel _ _ acc hch ht]
    refine ⟨_, rfl, by simp, Or.inr hacc, ?_, by simp⟩
    simp [hacc, hch]
  · rw [waitLoop_changed getState currentState fuel _ _ acc hch]
    refine ⟨_, rfl, by simp, Or.inl rfl, ?_, by simp⟩
    simp [hch]

/-- Started with the 20 ms slice, the loop leaves within
ceil(timeLeft / 20 ms) + 1 iterations however the state evolves, with OK or
with the result it started from, and with OK exactly when the last state read
differs from `currentState`. -/
theorem waitLoop_exits (getState : Nat → StreamState) (currentState : StreamState) :
    ∀ (fuel : Nat) (t : Int) (acc : WaitOutcome),
      ((t + 19999999) / 20000000).toNat < fuel → acc.result = Result.ErrorTimeout →
      ∃ out : WaitOutcome,
        waitLoop getState currentState fuel 20000000 t acc = some out ∧
        acc.reads < out.reads ∧
        (out.result = Result.OK ∨ out.result = Result.ErrorTimeout) ∧
        (out.result = Result.OK ↔ getState (out.reads - 1) ≠ currentState) ∧
        out.nextState = acc.nextState.map (fun _ => getState (out.reads - 1)) := by
  intro fuel
  induction fuel with
  | zero => intro t acc hf _; omega
  | succ n ih =>
    intro t acc hf hacc
    by_cases ht : t ≤ 0
    · exact waitLoop_exits_now getState currentState n _ t acc ht hacc
    · by_cases hch : getState acc.reads = currentState
      · rw [waitLoop_sleep getState currentState n _ t acc hch (by omega)]
        by_cases hlt : (20000000 : Int) > t
        · obtain ⟨m, rfl⟩ : ∃ m, n = m + 1 := ⟨n - 1, by omega⟩
          simp only [hlt, if_true, sub_self]
          obtain ⟨out, hrun, h1, h2, h3, h4⟩ :=
            waitLoop_exits_now getState currentState m t 0
              { result := acc.result
                nextState := acc.nextState.map (fun _ => getState acc.reads)
                reads := acc.reads + 1
                sleeps := acc.sleeps ++ [t] } (le_refl 0) hacc
          refine ⟨out, hrun, ?_, h2, h3, ?_⟩
          · simp only at h1
            omega
          · rw [h4]
            simp [Option.map_map, Function.comp_def]
        · simp only [hlt, if_false]
          obtain ⟨out, hrun, h1, h2, h3, h4⟩ :=
            ih (t - 20000000)
              { result := acc.result
                nextState := acc.nextState.map (fun _ => getState acc.reads)
                reads := acc.reads + 1
                sleeps := acc.sleeps ++ [20000000] } (by omega) hacc
          refine ⟨out, hrun, ?_, h2, h3, ?_⟩
          · simp only at h1
            omega
          · rw [h4]
            simp [Option.map_map, Function.comp_def]
      · rw [waitLoop_changed getState currentState n _ _ acc hch]
        refine ⟨_, rfl, by simp, Or.inl rfl, ?_, by simp⟩
        simp [hch]

/-- C18: for every `currentState`, every timeout and every evolution of the
observed state, `waitForStateChange` terminates (any fuel above
ceil(timeout / 20 ms), or any positive fuel when the timeout is not positive,
is enough); it returns OK or ErrorTimeout, and it returns OK if and only if
the state it read last, which is the value left in the cell behind a non-null
`nextState`, differs from `currentState`. -/
theorem waitForStateChange_result (fuel : Nat) (getState : Nat → StreamState)
    (currentState : StreamState) (nextState : Option StreamState) (timeoutNanoseconds : Int)
    (hfuel : ((timeoutNanoseconds + 19999999) / 20000000).toNat < fuel) :
    ∃ out : WaitOutcome,
      waitForStateChange fuel getState currentState nextState timeoutNanoseconds = some out ∧
      1 ≤ out.reads ∧
      (out.result = Result.OK ∨ out.result = Result.ErrorTimeout) ∧
      (out.result = Result.OK ↔ getState (out.reads - 1) ≠ currentState) ∧
      out.nextState = nextState.map (fun _ => getState (out.reads - 1)) := by
  have hS : 20 * kNanosPerMillisecond = 20000000 := by decide
  unfold waitForStateChange
  rw [hS]
  obtain ⟨out, hrun, h1, h2, h3, h4⟩ :=
    waitLoop_exits getState currentState fuel timeoutNanoseconds
      { result := Result.ErrorTimeout, nextState := nextState, reads := 0, sleeps := [] }
      hfuel rfl
  exact ⟨out, hrun, by simp only at h1; omega, h2, h3, h4⟩

/-- Witness for C18: a 50 ms wait on Open during which the stream is seen as
Open twice and then as Started. -/
theorem waitForStateChange_result_witness :
    ∃ out : WaitOutcome,
      waitForStateChange 4 (fun k => if k < 2 then StreamState.Open else StreamState.Started)
        StreamState.Open (some StreamState.Uninitialized) 50000000 = some out ∧
      1 ≤ out.reads ∧
      (out.result = Result.OK ∨ out.result = Result.ErrorTimeout) ∧
      (out.result = Result.OK ↔
        (fun k => if k < 2 then StreamState.Open else StreamState.Started) (out.reads - 1)
          ≠ StreamState.Open) ∧
      out.nextState = (some StreamState.Uninitialized).map
        (fun _ => (fun k => if k < 2 then StreamState.Open else StreamState.Started)
          (out.reads - 1)) :=
  waitForStateChange_result 4 (fun k => if k < 2 then StreamState.Open else StreamState.Started)
    StreamState.Open (some StreamState.Uninitialized) 50000000 (by decide)

end Oboe
